import Mathlib

/-!
Verification of the real-time WebSocket subsystem of the `lux` repository
(`backend/websocket/`): the connection registry (`websocket_manager.py`),
the session authenticator and rate limiter (`websocket_auth.py`), and the
typed event model (`websocket_events.py`).

The Python code is embedded shallowly: every stateful class becomes a Lean
structure, every method a pure function from the old state (plus the
explicit inputs Python takes from the environment, such as the current
time, the freshly generated connection id, and whether a socket send
succeeds) to the new state together with the values the method returns and
the events it sends.  Python dictionaries become association lists with
Python's dict semantics (assignment replaces in place, deletion removes
the key); Python sets become duplicate-free lists.
-/

/-! ## Association-list dictionaries (Python `dict` semantics) -/

/-- Python `l[k]` / `l.get(k)`: the value of the first
binding of `k`, if any. -/
def alookup {κ : Type} {α : Type} [DecidableEq κ] : List (κ × α) → κ → Option α
  | [], _ => none
  | (k2, v) :: rest, k => if k2 = k then some v else alookup rest k

/-- Python `l.get(k, d)`. -/
def alookupD {κ : Type} {α : Type} [DecidableEq κ] (l : List (κ × α)) (k : κ) (d : α) : α :=
  (alookup l k).getD d

/-- Python `l[k] = v`: replaces the binding in place if
`k` is present (keeping insertion order), else appends it. -/
def astore {κ : Type} {α : Type} [DecidableEq κ] : List (κ × α) → κ → α → List (κ × α)
  | [], k, v => [(k, v)]
  | (k2, v2) :: rest, k, v =>
      if k2 = k then (k, v) :: rest else (k2, v2) :: astore rest k v

/-- Python `del l[k]` (a no-op when `k` is absent, which
only arises where the Python code guards the `del`). -/
def aerase {κ : Type} {α : Type} [DecidableEq κ] (l : List (κ × α)) (k : κ) : List (κ × α) :=
  l.filter (fun p => decide (p.1 ≠ k))

/-- Python `list(l.keys())`. -/
def akeys {κ : Type} {α : Type} (l : List (κ × α)) : List κ :=
  l.map Prod.fst

/-- Python `set.add`: append if absent (sets are modelled as
duplicate-free lists). -/
def sadd {α : Type} [DecidableEq α] (l : List α) (x : α) : List α :=
  if x ∈ l then l else l ++ [x]

/-- Python `set.discard`: remove every occurrence, no error when absent. -/
def sdiscard {α : Type} [DecidableEq α] (l : List α) (x : α) : List α :=
  l.filter (fun y => decide (y ≠ x))

/-! ### Laws for the dictionary operations -/

theorem alookup_astore_self {κ α : Type} [DecidableEq κ] (l : List (κ × α)) (k : κ) (v : α) :
    alookup (astore l k v) k = some v := by
  induction l with
  | nil => simp [astore, alookup]
  | cons p rest ih =>
      obtain ⟨k2, v2⟩ := p
      by_cases h : k2 = k
      · simp [astore, h, alookup]
      · simp [astore, h, alookup, ih]

theorem alookup_astore_ne {κ α : Type} [DecidableEq κ] (l : List (κ × α)) (k k2 : κ) (v : α)
    (h : k2 ≠ k) : alookup (astore l k v) k2 = alookup l k2 := by
  induction l with
  | nil => simp [astore, alookup, Ne.symm h]
  | cons p rest ih =>
      obtain ⟨k3, v3⟩ := p
      by_cases h3 : k3 = k
      · subst h3
        simp [astore, alookup, Ne.symm h]
      · simp [astore, alookup, h3, ih]

theorem alookup_aerase_self {κ α : Type} [DecidableEq κ] (l : List (κ × α)) (k : κ) :
    alookup (aerase l k) k = none := by
  induction l with
  | nil => rfl
  | cons p rest ih =>
      obtain ⟨k2, v2⟩ := p
      by_cases h : k2 = k
      · simpa [aerase, List.filter_cons, h] using ih
      · simpa [aerase, List.filter_cons, alookup, h] using ih

theorem alookup_aerase_ne {κ α : Type} [DecidableEq κ] (l : List (κ × α)) (k k2 : κ)
    (h : k2 ≠ k) : alookup (aerase l k) k2 = alookup l k2 := by
  induction l with
  | nil => rfl
  | cons p rest ih =>
      obtain ⟨k3, v3⟩ := p
      by_cases h3 : k3 = k
      · subst h3
        simpa [aerase, List.filter_cons, alookup, Ne.symm h] using ih
      · simp only [aerase, ne_eq, decide_not] at ih
        simp [aerase, List.filter_cons, alookup, h3, ih]

theorem akeys_astore_mem {κ α : Type} [DecidableEq κ] (l : List (κ × α)) (k : κ) (v : α)
    (h : k ∈ akeys l) : akeys (astore l k v) = akeys l := by
  induction l with
  | nil => simp [akeys] at h
  | cons p rest ih =>
      obtain ⟨k2, v2⟩ := p
      by_cases h2 : k2 = k
      · simp [astore, h2, akeys]
      · have hm : k ∈ akeys rest := by
          rcases List.mem_cons.mp h with h5 | h5
          · exact absurd h5.symm h2
          · exact h5
        simp only [astore, if_neg h2, akeys, List.map_cons]
        rw [show List.map Prod.fst (astore rest k v) = List.map Prod.fst rest from ih hm]

theorem akeys_astore_not_mem {κ α : Type} [DecidableEq κ] (l : List (κ × α)) (k : κ) (v : α)
    (h : k ∉ akeys l) : akeys (astore l k v) = akeys l ++ [k] := by
  induction l with
  | nil => simp [astore, akeys]
  | cons p rest ih =>
      obtain ⟨k2, v2⟩ := p
      have h2 : ¬ k2 = k := fun hh => h (List.mem_cons.mpr (Or.inl hh.symm))
      have hm : k ∉ akeys rest := fun hh => h (List.mem_cons.mpr (Or.inr hh))
      simp only [astore, if_neg h2, akeys, List.map_cons, List.cons_append]
      rw [show List.map Prod.fst (astore rest k v) = List.map Prod.fst rest ++ [k] from ih hm]

theorem akeys_nodup_astore {κ α : Type} [DecidableEq κ] (l : List (κ × α)) (k : κ) (v : α)
    (h : (akeys l).Nodup) : (akeys (astore l k v)).Nodup := by
  by_cases hm : k ∈ akeys l
  · rwa [akeys_astore_mem l k v hm]
  · rw [akeys_astore_not_mem l k v hm]
    refine List.Nodup.append h (List.nodup_singleton k) ?_
    intro a ha hb
    rw [List.mem_singleton] at hb
    exact hm (hb ▸ ha)

theorem akeys_nodup_aerase {κ α : Type} [DecidableEq κ] (l : List (κ × α)) (k : κ)
    (h : (akeys l).Nodup) : (akeys (aerase l k)).Nodup := by
  have hs : List.Sublist (aerase l k) l := List.filter_sublist l
  exact List.Nodup.sublist (List.Sublist.map Prod.fst hs) h

/-! ## Rate limiter (`websocket_auth.py`, class `WebSocketRateLimiter`)

Timestamps are integers (the Python code uses POSIX-epoch clock readings;
nothing in the admission logic depends on fractional seconds).  Each key of
the limiter is independent, so the two backend checks are embedded as
functions of the single bucket/sorted-set belonging to the key under
check. -/

/-- Redis `ZREMRANGEBYSCORE key lo hi`: removes the members whose score
lies in the closed interval `[lo, hi]`. -/
def Redis.zremrangebyscore (scores : List Int) (lo hi : Int) : List Int :=
  scores.filter (fun t => !(decide (lo ≤ t) && decide (t ≤ hi)))

/-- Redis `ZADD key {member: score}` where the member is the string form of
the score: inserts the score as a set element (a second `ZADD` of the same
score only overwrites the existing member). -/
def Redis.zadd (scores : List Int) (member : Int) : List Int :=
  if member ∈ scores then scores else scores ++ [member]

/-- Embeds `WebSocketRateLimiter._check_redis_rate_limit`
(`websocket_auth.py:95-110`), the non-error path: prune scores in
`[0, now - window]`, count, then unconditionally record `now` and return
whether the pruned count was below the limit.  Returns the decision and
the new sorted-set contents. -/
def WebSocketRateLimiter.check_redis_rate_limit
    (scores : List Int) (limit : Nat) (window now : Int) : Bool × List Int :=
  let kept := Redis.zremrangebyscore scores 0 (now - window)
  (decide (kept.length < limit), Redis.zadd kept now)

/-- Embeds `WebSocketRateLimiter._check_local_rate_limit`
(`websocket_auth.py:112-131`): drop requests at or before `now - window`,
refuse if at least `limit` remain, else record `now` and admit.  Returns
the decision and the new bucket contents. -/
def WebSocketRateLimiter.check_local_rate_limit
    (requests : List Int) (limit : Nat) (window now : Int) : Bool × List Int :=
  let kept := requests.filter (fun t => decide (now - window < t))
  if limit ≤ kept.length then (false, kept)
  else (true, kept ++ [now])

/-- Runs the local backend over a sequence of checks with the same key,
limit and window, returning the sequence of admission decisions. -/
def runLocalRateLimit (requests : List Int) (limit : Nat) (window : Int) :
    List Int → List Bool
  | [] => []
  | now :: rest =>
      let r := WebSocketRateLimiter.check_local_rate_limit requests limit window now
      r.1 :: runLocalRateLimit r.2 limit window rest

/-- Runs the Redis backend over a sequence of checks with the same key,
limit and window, returning the sequence of admission decisions. -/
def runRedisRateLimit (scores : List Int) (limit : Nat) (window : Int) :
    List Int → List Bool
  | [] => []
  | now :: rest =>
      let r := WebSocketRateLimiter.check_redis_rate_limit scores limit window now
      r.1 :: runRedisRateLimit r.2 limit window rest

/-! ### Rate limiter lemmas -/

theorem check_local_snd_true (requests : List Int) (limit : Nat) (window now : Int)
    (h : (WebSocketRateLimiter.check_local_rate_limit requests limit window now).1 = true) :
    (WebSocketRateLimiter.check_local_rate_limit requests limit window now).2 =
      requests.filter (fun t => decide (now - window < t)) ++ [now] := by
  unfold WebSocketRateLimiter.check_local_rate_limit at h ⊢
  by_cases hL : limit ≤ (requests.filter (fun t => decide (now - window < t))).length
  · simp [hL] at h
  · simp [hL]

theorem check_local_snd_false (requests : List Int) (limit : Nat) (window now : Int)
    (h : (WebSocketRateLimiter.check_local_rate_limit requests limit window now).1 = false) :
    (WebSocketRateLimiter.check_local_rate_limit requests limit window now).2 =
      requests.filter (fun t => decide (now - window < t)) := by
  unfold WebSocketRateLimiter.check_local_rate_limit at h ⊢
  by_cases hL : limit ≤ (requests.filter (fun t => decide (now - window < t))).length
  · simp [hL]
  · simp [hL] at h

/-- On a shared state of nonnegative recorded timestamps and a current
timestamp not yet recorded, one Redis check and one local check return the
same decision, and on admission they also leave the same recorded state. -/
theorem rate_limit_step_agree (st : List Int) (limit : Nat) (window now : Int)
    (h0 : ∀ x ∈ st, 0 ≤ x) (hfresh : now ∉ st) :
    (WebSocketRateLimiter.check_redis_rate_limit st limit window now).1 =
      (WebSocketRateLimiter.check_local_rate_limit st limit window now).1 ∧
    ((WebSocketRateLimiter.check_local_rate_limit st limit window now).1 = true →
      (WebSocketRateLimiter.check_redis_rate_limit st limit window now).2 =
        (WebSocketRateLimiter.check_local_rate_limit st limit window now).2) := by
  have hkept : Redis.zremrangebyscore st 0 (now - window) =
      st.filter (fun t => decide (now - window < t)) := by
    unfold Redis.zremrangebyscore
    apply List.filter_congr
    intro x hx
    have h1 : 0 ≤ x := h0 x hx
    by_cases h2 : now - window < x
    · have h3 : ¬ x ≤ now - window := by omega
      simp [h1, h2, h3]
    · have h3 : x ≤ now - window := by omega
      simp [h1, h2, h3]
  constructor
  · unfold WebSocketRateLimiter.check_redis_rate_limit
      WebSocketRateLimiter.check_local_rate_limit
    rw [hkept]
    by_cases hL : limit ≤ (st.filter (fun t => decide (now - window < t))).length
    · have h3 : ¬ (st.filter (fun t => decide (now - window < t))).length < limit := by omega
      simp [hL, h3]
    · have h3 : (st.filter (fun t => decide (now - window < t))).length < limit := by omega
      simp [hL, h3]
  · intro htrue
    rw [check_local_snd_true st limit window now htrue]
    unfold WebSocketRateLimiter.check_redis_rate_limit
    rw [hkept]
    have hnm : now ∉ st.filter (fun t => decide (now - window < t)) :=
      fun hmem => hfresh (List.mem_of_mem_filter hmem)
    simp [Redis.zadd, hnm]

/-- Claim C3 as written is refuted by this run: with limit 1 and window 10,
on the check sequence at times 0, 1, 10 the local backend answers
admit/refuse/admit while the Redis backend answers admit/refuse/refuse
(it recorded the refused attempt at time 1). -/
theorem C3_backends_diverge :
    runLocalRateLimit [] 1 10 [0, 1, 10] ≠ runRedisRateLimit [] 1 10 [0, 1, 10] := by
  decide

/-- Claim C3, amended: over strictly increasing nonnegative check times, the
Redis-backed and local backends return the same admission decisions up to
and including the first refusal; afterwards they may diverge, because the
Redis backend records refused attempts and the local one does not. -/
theorem C3_backends_agree_until_first_refusal
    (ts st : List Int) (limit : Nat) (window : Int)
    (hst0 : ∀ x ∈ st, 0 ≤ x) (hts0 : ∀ t ∈ ts, 0 ≤ t)
    (hfresh : ∀ t ∈ ts, ∀ x ∈ st, x < t)
    (hsorted : ts.Pairwise (· < ·)) (n : Nat)
    (hpre : ∀ b ∈ (runLocalRateLimit st limit window ts).take n, b = true) :
    (runRedisRateLimit st limit window ts).take (n + 1) =
      (runLocalRateLimit st limit window ts).take (n + 1) := by
  induction ts generalizing st n with
  | nil => simp [runLocalRateLimit, runRedisRateLimit]
  | cons now rest ih =>
      have hnow0 : 0 ≤ now := hts0 now (List.mem_cons_self now rest)
      have hnmem : now ∉ st := fun hmem =>
        absurd (hfresh now (List.mem_cons_self now rest) now hmem) (lt_irrefl now)
      obtain ⟨hdec, hstate⟩ := rate_limit_step_agree st limit window now hst0 hnmem
      rw [runLocalRateLimit, runRedisRateLimit] at *
      rcases n with _ | m
      · simp [List.take_succ_cons, hdec]
      · have hhead :
            (WebSocketRateLimiter.check_local_rate_limit st limit window now).1 = true := by
          apply hpre
          simp [List.take_succ_cons]
        have hsnd := check_local_snd_true st limit window now hhead
        rw [List.take_succ_cons, List.take_succ_cons, hdec, hstate hhead, hsnd]
        have hrec := ih
          ((st.filter (fun t => decide (now - window < t))) ++ [now])
          (fun x hx => by
            rcases List.mem_append.mp hx with hx1 | hx1
            · exact hst0 x (List.mem_of_mem_filter hx1)
            · rw [List.mem_singleton.mp hx1]; exact hnow0)
          (fun t ht => hts0 t (List.mem_cons_of_mem now ht))
          (fun t ht x hx => by
            rcases List.mem_append.mp hx with hx1 | hx1
            · exact hfresh t (List.mem_cons_of_mem now ht) x (List.mem_of_mem_filter hx1)
            · rw [List.mem_singleton.mp hx1]
              exact (List.pairwise_cons.mp hsorted).1 t ht)
          (List.pairwise_cons.mp hsorted).2
          m
          (fun b hb => by
            apply hpre
            rw [List.take_succ_cons]
            rw [← hsnd] at hb
            exact List.mem_cons_of_mem _ hb)
        rw [hrec]

/-- Closed instance of the amended C3 statement at the counterexample run:
both backends agree on the first two decisions (up to and including the
first refusal). -/
theorem C3_backends_agree_witness :
    (runRedisRateLimit [] 1 10 [0, 1, 10]).take 2 =
      (runLocalRateLimit [] 1 10 [0, 1, 10]).take 2 :=
  C3_backends_agree_until_first_refusal [0, 1, 10] [] 1 10
    (by decide) (by decide) (by decide) (by decide) 1 (by decide)

theorem check_local_fst (requests : List Int) (limit : Nat) (window now : Int) :
    (WebSocketRateLimiter.check_local_rate_limit requests limit window now).1 =
      decide ((requests.filter (fun t => decide (now - window < t))).length < limit) := by
  unfold WebSocketRateLimiter.check_local_rate_limit
  by_cases hL : limit ≤ (requests.filter (fun t => decide (now - window < t))).length
  · have h3 : ¬ (requests.filter (fun t => decide (now - window < t))).length < limit := by
      omega
    simp [hL, h3]
  · have h3 : (requests.filter (fun t => decide (now - window < t))).length < limit := by
      omega
    simp [hL, h3]

theorem list_map_congr_mem {α β : Type} (l : List α) (f g : α → β)
    (h : ∀ a ∈ l, f a = g a) : l.map f = l.map g := by
  induction l with
  | nil => rfl
  | cons a rest ih =>
      rw [List.map_cons, List.map_cons, h a (List.mem_cons_self a rest),
        ih (fun b hb => h b (List.mem_cons_of_mem a hb))]

/-- When every check time of a run lies within one window-length of every
recorded timestamp and of every other check time, no timestamp is ever
pruned, so the i-th decision admits exactly when the recorded count plus i
is still below the limit. -/
theorem rate_limit_burst (limit : Nat) (window : Int) (ts : List Int) (st : List Int)
    (hsurvive : ∀ x ∈ st, ∀ t ∈ ts, t - window < x)
    (hwin : ∀ t ∈ ts, ∀ u ∈ ts, t - window < u) :
    runLocalRateLimit st limit window ts =
      (List.range ts.length).map (fun i => decide (st.length + i < limit)) := by
  induction ts generalizing st with
  | nil => simp [runLocalRateLimit]
  | cons now rest ih =>
      have hkept : st.filter (fun t => decide (now - window < t)) = st := by
        rw [List.filter_eq_self]
        intro x hx
        exact decide_eq_true (hsurvive x hx now (List.mem_cons_self now rest))
      have hmemrest : ∀ t ∈ rest, t ∈ now :: rest := fun t ht => List.mem_cons_of_mem now ht
      rw [runLocalRateLimit, List.length_cons, List.range_succ_eq_map, List.map_cons,
        List.map_map]
      by_cases hL : limit ≤ st.length
      · have hfst : (WebSocketRateLimiter.check_local_rate_limit st limit window now).1 =
            false := by
          rw [check_local_fst, hkept]
          have h1 : ¬ st.length < limit := by omega
          simp [h1]
        have hsnd := check_local_snd_false st limit window now hfst
        rw [hfst, hsnd, hkept]
        have htail := ih st
          (fun x hx t ht => hsurvive x hx t (hmemrest t ht))
          (fun t ht u hu => hwin t (hmemrest t ht) u (hmemrest u hu))
        rw [htail]
        congr 1
        · have h1 : ¬ st.length + 0 < limit := by omega
          simp [h1]
          omega
        · apply list_map_congr_mem
          intro a _
          exact decide_eq_decide.mpr (by omega)
      · have hfst : (WebSocketRateLimiter.check_local_rate_limit st limit window now).1 =
            true := by
          rw [check_local_fst, hkept]
          have h1 : st.length < limit := by omega
          simp [h1]
        have hsnd := check_local_snd_true st limit window now hfst
        rw [hfst, hsnd, hkept]
        have htail := ih (st ++ [now])
          (fun x hx t ht => by
            rcases List.mem_append.mp hx with hx1 | hx1
            · exact hsurvive x hx1 t (hmemrest t ht)
            · rw [List.mem_singleton.mp hx1]
              exact hwin t (hmemrest t ht) now (List.mem_cons_self now rest))
          (fun t ht u hu => hwin t (hmemrest t ht) u (hmemrest u hu))
        rw [htail, List.length_append, List.length_singleton]
        congr 1
        · have h1 : st.length + 0 < limit := by omega
          simp [h1]
          omega
        · apply list_map_congr_mem
          intro a _
          exact decide_eq_decide.mpr (by omega)

/-- Claim C4, confirmed: for the in-process backend (the one the system
constructs, since the authenticator is built without a Redis client) a
check on a bucket is admitted iff fewer than `limit` recorded timestamps
lie within the last `window` time units; the current time is recorded
exactly on admission; and for any burst of checks on a fresh key whose
times all lie within one half-open window-length interval, precisely the
first `limit` checks are admitted and every later one (in particular the
`limit+1`-th) is refused. -/
theorem C4_sliding_window_admission
    (st : List Int) (limit : Nat) (window now : Int) (ts : List Int)
    (hwin : ∀ t ∈ ts, ∀ u ∈ ts, t - window < u) :
    ((WebSocketRateLimiter.check_local_rate_limit st limit window now).1 = true ↔
      (st.filter (fun t => decide (now - window < t))).length < limit) ∧
    ((WebSocketRateLimiter.check_local_rate_limit st limit window now).1 = true →
      (WebSocketRateLimiter.check_local_rate_limit st limit window now).2 =
        st.filter (fun t => decide (now - window < t)) ++ [now]) ∧
    ((WebSocketRateLimiter.check_local_rate_limit st limit window now).1 = false →
      (WebSocketRateLimiter.check_local_rate_limit st limit window now).2 =
        st.filter (fun t => decide (now - window < t))) ∧
    runLocalRateLimit [] limit window ts =
      (List.range ts.length).map (fun i => decide (i < limit)) := by
  refine ⟨?_, check_local_snd_true st limit window now,
    check_local_snd_false st limit window now, ?_⟩
  · rw [check_local_fst]
    exact ⟨of_decide_eq_true, decide_eq_true⟩
  · have hb := rate_limit_burst limit window ts [] (fun x hx => absurd hx (List.not_mem_nil x))
      hwin
    simpa using hb

/-- Closed instance of C4 at limit 2, window 10: the checks at times
0, 3, 5, 9 decide admit, admit, refuse, refuse. -/
theorem C4_sliding_window_admission_witness :
    (((WebSocketRateLimiter.check_local_rate_limit [5] 2 10 9).1 = true ↔
      (([5] : List Int).filter (fun t => decide ((9 : Int) - 10 < t))).length < 2) ∧
    ((WebSocketRateLimiter.check_local_rate_limit [5] 2 10 9).1 = true →
      (WebSocketRateLimiter.check_local_rate_limit [5] 2 10 9).2 =
        ([5] : List Int).filter (fun t => decide ((9 : Int) - 10 < t)) ++ [9]) ∧
    ((WebSocketRateLimiter.check_local_rate_limit [5] 2 10 9).1 = false →
      (WebSocketRateLimiter.check_local_rate_limit [5] 2 10 9).2 =
        ([5] : List Int).filter (fun t => decide ((9 : Int) - 10 < t))) ∧
    runLocalRateLimit [] 2 10 [0, 3, 5, 9] =
      (List.range ([0, 3, 5, 9] : List Int).length).map (fun i => decide (i < 2))) :=
  C4_sliding_window_admission [5] 2 10 9 [0, 3, 5, 9] (by decide)

/-! ## Event model (`websocket_events.py`) -/

/-- Embeds the closed `EventType` enumeration (`websocket_events.py:22-80`). -/
inductive EventType
  | connection_established
  | connection_lost
  | ping
  | pong
  | authenticate
  | authentication_success
  | authentication_failed
  | token_expired
  | subscribe
  | unsubscribe
  | subscription_confirmed
  | subscription_failed
  | instance_status_changed
  | instance_created
  | instance_deleted
  | instance_connected
  | instance_disconnected
  | qr_code_generated
  | message_received
  | message_sent
  | message_delivered
  | message_read
  | message_failed
  | agent_created
  | agent_updated
  | agent_deleted
  | agent_materialized
  | agent_response
  | agent_error
  | system_status
  | system_error
  | system_maintenance
  | rate_limit_exceeded
  | user_activity
  | user_logged_in
  | user_logged_out
  | performance_metrics
  | health_check
  | log_entry
  deriving DecidableEq, Repr

/-- The wire value of each event type (the Python enum member value). -/
def EventType.value : EventType → String
  | .connection_established => "connection_established"
  | .connection_lost => "connection_lost"
  | .ping => "ping"
  | .pong => "pong"
  | .authenticate => "authenticate"
  | .authentication_success => "authentication_success"
  | .authentication_failed => "authentication_failed"
  | .token_expired => "token_expired"
  | .subscribe => "subscribe"
  | .unsubscribe => "unsubscribe"
  | .subscription_confirmed => "subscription_confirmed"
  | .subscription_failed => "subscription_failed"
  | .instance_status_changed => "instance_status_changed"
  | .instance_created => "instance_created"
  | .instance_deleted => "instance_deleted"
  | .instance_connected => "instance_connected"
  | .instance_disconnected => "instance_disconnected"
  | .qr_code_generated => "qr_code_generated"
  | .message_received => "message_received"
  | .message_sent => "message_sent"
  | .message_delivered => "message_delivered"
  | .message_read => "message_read"
  | .message_failed => "message_failed"
  | .agent_created => "agent_created"
  | .agent_updated => "agent_updated"
  | .agent_deleted => "agent_deleted"
  | .agent_materialized => "agent_materialized"
  | .agent_response => "agent_response"
  | .agent_error => "agent_error"
  | .system_status => "system_status"
  | .system_error => "system_error"
  | .system_maintenance => "system_maintenance"
  | .rate_limit_exceeded => "rate_limit_exceeded"
  | .user_activity => "user_activity"
  | .user_logged_in => "user_logged_in"
  | .user_logged_out => "user_logged_out"
  | .performance_metrics => "performance_metrics"
  | .health_check => "health_check"
  | .log_entry => "log_entry"

/-- Python `EventType(s)`: the member with value `s`, or a `ValueError`
(modelled as `none`). -/
def EventType.fromValue : String → Option EventType
  | "connection_established" => some .connection_established
  | "connection_lost" => some .connection_lost
  | "ping" => some .ping
  | "pong" => some .pong
  | "authenticate" => some .authenticate
  | "authentication_success" => some .authentication_success
  | "authentication_failed" => some .authentication_failed
  | "token_expired" => some .token_expired
  | "subscribe" => some .subscribe
  | "unsubscribe" => some .unsubscribe
  | "subscription_confirmed" => some .subscription_confirmed
  | "subscription_failed" => some .subscription_failed
  | "instance_status_changed" => some .instance_status_changed
  | "instance_created" => some .instance_created
  | "instance_deleted" => some .instance_deleted
  | "instance_connected" => some .instance_connected
  | "instance_disconnected" => some .instance_disconnected
  | "qr_code_generated" => some .qr_code_generated
  | "message_received" => some .message_received
  | "message_sent" => some .message_sent
  | "message_delivered" => some .message_delivered
  | "message_read" => some .message_read
  | "message_failed" => some .message_failed
  | "agent_created" => some .agent_created
  | "agent_updated" => some .agent_updated
  | "agent_deleted" => some .agent_deleted
  | "agent_materialized" => some .agent_materialized
  | "agent_response" => some .agent_response
  | "agent_error" => some .agent_error
  | "system_status" => some .system_status
  | "system_error" => some .system_error
  | "system_maintenance" => some .system_maintenance
  | "rate_limit_exceeded" => some .rate_limit_exceeded
  | "user_activity" => some .user_activity
  | "user_logged_in" => some .user_logged_in
  | "user_logged_out" => some .user_logged_out
  | "performance_metrics" => some .performance_metrics
  | "health_check" => some .health_check
  | "log_entry" => some .log_entry
  | _ => none

theorem eventType_fromValue_roundtrip (t : EventType) : EventType.fromValue t.value = some t := by
  cases t <;> rfl

/-- Embeds `EventPriority` (`websocket_events.py:83-88`). -/
inductive EventPriority
  | low
  | normal
  | high
  | critical
  deriving DecidableEq, Repr

def EventPriority.value : EventPriority → String
  | .low => "low"
  | .normal => "normal"
  | .high => "high"
  | .critical => "critical"

def EventPriority.fromValue : String → Option EventPriority
  | "low" => some .low
  | "normal" => some .normal
  | "high" => some .high
  | "critical" => some .critical
  | _ => none

theorem eventPriority_fromValue_roundtrip (p : EventPriority) :
    EventPriority.fromValue p.value = some p := by
  cases p <;> rfl

/-- Embeds `EventCategory` (`websocket_events.py:91-100`). -/
inductive EventCategory
  | connection
  | authentication
  | subscription
  | whatsapp
  | agent
  | system
  | user
  | monitoring
  deriving DecidableEq, Repr

def EventCategory.value : EventCategory → String
  | .connection => "connection"
  | .authentication => "authentication"
  | .subscription => "subscription"
  | .whatsapp => "whatsapp"
  | .agent => "agent"
  | .system => "system"
  | .user => "user"
  | .monitoring => "monitoring"

/-- Embeds the static `EVENT_CATEGORIES` table
(`websocket_events.py:104-159`); the table covers every member, so the
`.get(type, SYSTEM)` fallback in the `category` property never fires. -/
def EVENT_CATEGORIES : EventType → EventCategory
  | .connection_established => .connection
  | .connection_lost => .connection
  | .ping => .connection
  | .pong => .connection
  | .authenticate => .authentication
  | .authentication_success => .authentication
  | .authentication_failed => .authentication
  | .token_expired => .authentication
  | .subscribe => .subscription
  | .unsubscribe => .subscription
  | .subscription_confirmed => .subscription
  | .subscription_failed => .subscription
  | .instance_status_changed => .whatsapp
  | .instance_created => .whatsapp
  | .instance_deleted => .whatsapp
  | .instance_connected => .whatsapp
  | .instance_disconnected => .whatsapp
  | .qr_code_generated => .whatsapp
  | .message_received => .whatsapp
  | .message_sent => .whatsapp
  | .message_delivered => .whatsapp
  | .message_read => .whatsapp
  | .message_failed => .whatsapp
  | .agent_created => .agent
  | .agent_updated => .agent
  | .agent_deleted => .agent
  | .agent_materialized => .agent
  | .agent_response => .agent
  | .agent_error => .agent
  | .system_status => .system
  | .system_error => .system
  | .system_maintenance => .system
  | .rate_limit_exceeded => .system
  | .user_activity => .user
  | .user_logged_in => .user
  | .user_logged_out => .user
  | .performance_metrics => .monitoring
  | .health_check => .monitoring
  | .log_entry => .monitoring

/-! ### Timestamps and canonical ISO-8601 formatting

`WebSocketEvent.timestamp` is a timezone-aware UTC `datetime`; `to_dict`
renders it with `datetime.isoformat()` and `from_dict` parses it back with
`datetime.fromisoformat` after a `replace("Z", "+00:00")`.  The stdlib
collaborator is embedded on the calendar fields the envelope carries. -/

/-- A timezone-aware UTC `datetime`, by its calendar fields. -/
structure Datetime where
  year : Nat
  month : Nat
  day : Nat
  hour : Nat
  minute : Nat
  second : Nat
  microsecond : Nat
  deriving DecidableEq, Repr

/-- The field bounds every real `datetime` satisfies (the true bounds are
tighter, e.g. `month ≤ 12`; only the digit counts matter here). -/
def Datetime.Valid (d : Datetime) : Prop :=
  d.year < 10000 ∧ d.month < 100 ∧ d.day < 100 ∧ d.hour < 100 ∧
    d.minute < 100 ∧ d.second < 100 ∧ d.microsecond < 1000000

def digitChar (n : Nat) : Char := Char.ofNat (48 + n)

/-- Two decimal digits (`%02d` for arguments below 100). -/
def pad2 (n : Nat) : List Char := [digitChar (n / 10 % 10), digitChar (n % 10)]

/-- Four decimal digits (`%04d` for arguments below 10000). -/
def pad4 (n : Nat) : List Char := pad2 (n / 100) ++ pad2 (n % 100)

/-- Six decimal digits (`%06d` for arguments below 1000000). -/
def pad6 (n : Nat) : List Char := pad4 (n / 100) ++ pad2 (n % 100)

/-- Python `datetime.isoformat()` on a timezone-aware UTC value:
`YYYY-MM-DDTHH:MM:SS[.ffffff]+00:00`, the fractional part omitted when the
microsecond field is zero. -/
def Datetime.isoChars (d : Datetime) : List Char :=
  pad4 d.year ++ '-' :: (pad2 d.month ++ '-' :: (pad2 d.day ++ 'T' ::
    (pad2 d.hour ++ ':' :: (pad2 d.minute ++ ':' :: (pad2 d.second ++
      ((if d.microsecond = 0 then [] else '.' :: pad6 d.microsecond) ++
        ('+' :: '0' :: '0' :: ':' :: '0' :: '0' :: ([] : List Char))))))))

def Datetime.isoformat (d : Datetime) : String := String.mk d.isoChars

def digitVal (c : Char) : Option Nat :=
  if 48 ≤ c.toNat ∧ c.toNat ≤ 57 then some (c.toNat - 48) else none

def parse2 : List Char → Option (Nat × List Char)
  | a :: b :: rest =>
      match digitVal a, digitVal b with
      | some x, some y => some (x * 10 + y, rest)
      | _, _ => none
  | _ => none

def parse4 (cs : List Char) : Option (Nat × List Char) :=
  match parse2 cs with
  | some (hi, rest) =>
      match parse2 rest with
      | some (lo, rest2) => some (hi * 100 + lo, rest2)
      | none => none
  | none => none

def parse6 (cs : List Char) : Option (Nat × List Char) :=
  match parse4 cs with
  | some (hi, rest) =>
      match parse2 rest with
      | some (lo, rest2) => some (hi * 100 + lo, rest2)
      | none => none
  | none => none

def expectChar (c : Char) : List Char → Option (List Char)
  | x :: rest => if x = c then some rest else none
  | [] => none

/-- The `+00:00` UTC offset suffix, which must end the string. -/
def parseOffset : List Char → Option Unit
  | '+' :: '0' :: '0' :: ':' :: '0' :: '0' :: [] => some ()
  | _ => none

/-- Python `datetime.fromisoformat` on the canonical strings `Datetime.isoformat`
produces (the only strings the envelope decoder receives from `to_dict`
output). -/
def Datetime.fromisoChars (cs : List Char) : Option Datetime :=
  (parse4 cs).bind (fun py =>
  (expectChar '-' py.2).bind (fun r2 =>
  (parse2 r2).bind (fun pmo =>
  (expectChar '-' pmo.2).bind (fun r4 =>
  (parse2 r4).bind (fun pda =>
  (expectChar 'T' pda.2).bind (fun r6 =>
  (parse2 r6).bind (fun ph =>
  (expectChar ':' ph.2).bind (fun r8 =>
  (parse2 r8).bind (fun pmi =>
  (expectChar ':' pmi.2).bind (fun r10 =>
  (parse2 r10).bind (fun ps =>
  match ps.2 with
  | '.' :: r12 =>
      (parse6 r12).bind (fun pus =>
      (parseOffset pus.2).map (fun _ =>
        ⟨py.1, pmo.1, pda.1, ph.1, pmi.1, ps.1, pus.1⟩))
  | r11 =>
      (parseOffset r11).map (fun _ =>
        ⟨py.1, pmo.1, pda.1, ph.1, pmi.1, ps.1, 0⟩))))))))))))

/-- Python `str.replace("Z", "+00:00")` as `from_dict` applies it to the
timestamp field before parsing. -/
def replaceZ : List Char → List Char
  | [] => []
  | c :: rest =>
      if c = 'Z' then '+' :: '0' :: '0' :: ':' :: '0' :: '0' :: replaceZ rest
      else c :: replaceZ rest

/-! ### Round-trip lemmas for the timestamp encoding -/

theorem digitVal_digitChar (n : Nat) (h : n < 10) : digitVal (digitChar n) = some n := by
  interval_cases n <;> decide

theorem parse2_pad2 (n : Nat) (rest : List Char) (h : n < 100) :
    parse2 (pad2 n ++ rest) = some (n, rest) := by
  have h1 : n / 10 % 10 < 10 := Nat.mod_lt _ (by norm_num)
  have h2 : n % 10 < 10 := Nat.mod_lt _ (by norm_num)
  simp only [pad2, List.cons_append, List.nil_append, parse2,
    digitVal_digitChar _ h1, digitVal_digitChar _ h2]
  have e : n / 10 % 10 * 10 + n % 10 = n := by omega
  rw [e]

theorem parse4_pad4 (n : Nat) (rest : List Char) (h : n < 10000) :
    parse4 (pad4 n ++ rest) = some (n, rest) := by
  have e1 : pad4 n ++ rest = pad2 (n / 100) ++ (pad2 (n % 100) ++ rest) := by
    simp [pad4, List.append_assoc]
  rw [e1]
  have ha : n / 100 < 100 := by omega
  have hb : n % 100 < 100 := by omega
  simp only [parse4, parse2_pad2 _ _ ha, parse2_pad2 _ _ hb]
  have e2 : n / 100 * 100 + n % 100 = n := by omega
  rw [e2]

theorem parse6_pad6 (n : Nat) (rest : List Char) (h : n < 1000000) :
    parse6 (pad6 n ++ rest) = some (n, rest) := by
  have e1 : pad6 n ++ rest = pad4 (n / 100) ++ (pad2 (n % 100) ++ rest) := by
    simp [pad6, List.append_assoc]
  rw [e1]
  have ha : n / 100 < 10000 := by omega
  have hb : n % 100 < 100 := by omega
  simp only [parse6, parse4_pad4 _ _ ha, parse2_pad2 _ _ hb]
  have e2 : n / 100 * 100 + n % 100 = n := by omega
  rw [e2]

theorem expectChar_cons (c : Char) (rest : List Char) :
    expectChar c (c :: rest) = some rest := by
  simp [expectChar]

theorem replaceZ_append (a b : List Char) :
    replaceZ (a ++ b) = replaceZ a ++ replaceZ b := by
  induction a with
  | nil => rfl
  | cons c rest ih =>
      by_cases h : c = 'Z'
      · simp [replaceZ, h, ih]
      · simp [replaceZ, h, ih]

theorem digitChar_mod_ne (m : Nat) : ¬ digitChar (m % 10) = 'Z' := by
  have h : m % 10 < 10 := Nat.mod_lt _ (by norm_num)
  revert h
  generalize m % 10 = k
  intro h
  interval_cases k <;> decide

theorem replaceZ_pad2 (n : Nat) : replaceZ (pad2 n) = pad2 n := by
  simp [pad2, replaceZ, digitChar_mod_ne]

/-- The canonical isoformat output never contains a `Z`, so the
`replace("Z", "+00:00")` preprocessing in `from_dict` is the identity on
it. -/
theorem replaceZ_isoChars (d : Datetime) : replaceZ d.isoChars = d.isoChars := by
  have hp4 : ∀ n, replaceZ (pad4 n) = pad4 n := fun n => by
    simp [pad4, replaceZ_append, replaceZ_pad2]
  have hp6 : ∀ n, replaceZ (pad6 n) = pad6 n := fun n => by
    simp [pad6, replaceZ_append, replaceZ_pad2, hp4]
  unfold Datetime.isoChars
  by_cases h : d.microsecond = 0 <;>
    simp [h, replaceZ_append, replaceZ_pad2, hp4, hp6, replaceZ, digitChar_mod_ne,
      pad2, pad4, pad6]

/-- Parsing the canonical isoformat output of a datetime recovers the
datetime exactly. -/
theorem fromiso_isoformat (d : Datetime) (h : d.Valid) :
    Datetime.fromisoChars d.isoChars = some d := by
  obtain ⟨y, mo, da, hh, mi, s, us⟩ := d
  obtain ⟨h1, h2, h3, h4, h5, h6, h7⟩ := h
  unfold Datetime.isoChars Datetime.fromisoChars
  by_cases hus : us = 0
  · subst hus
    simp only [if_pos rfl, List.nil_append,
      parse4_pad4 _ _ h1, Option.some_bind, expectChar_cons,
      parse2_pad2 _ _ h2, parse2_pad2 _ _ h3, parse2_pad2 _ _ h4,
      parse2_pad2 _ _ h5, parse2_pad2 _ _ h6]
    rfl
  · simp only [if_neg hus, List.cons_append, List.append_assoc,
      parse4_pad4 _ _ h1, Option.some_bind, expectChar_cons,
      parse2_pad2 _ _ h2, parse2_pad2 _ _ h3, parse2_pad2 _ _ h4,
      parse2_pad2 _ _ h5]
    rw [show pad2 s ++ ('.' :: (pad6 us ++ ['+', '0', '0', ':', '0', '0'])) =
      pad2 s ++ ('.' :: (pad6 us ++ ['+', '0', '0', ':', '0', '0'])) from rfl]
    simp only [parse2_pad2 _ _ h6, Option.some_bind]
    simp only [parse6_pad6 _ _ h7, Option.some_bind]
    rfl

/-! ### The event and its wire envelope -/

/-- Embeds the `WebSocketEvent` dataclass (`websocket_events.py:162-171`).
The `data` and `metadata` payload dictionaries pass through serialization
untouched; their values are modelled as strings. -/
structure WebSocketEvent where
  type : EventType
  data : List (String × String)
  timestamp : Datetime
  connection_id : Option String
  user_id : Option String
  priority : EventPriority
  metadata : List (String × String)
  deriving DecidableEq, Repr

/-- The `category` property (`websocket_events.py:173-175`):
`EVENT_CATEGORIES.get(self.type, EventCategory.SYSTEM)`; the table is
total, so the fallback never fires. -/
def WebSocketEvent.category (e : WebSocketEvent) : EventCategory :=
  EVENT_CATEGORIES e.type

/-- The wire envelope `to_dict` produces: one field per dictionary key,
the timestamp already rendered as its ISO-8601 string. -/
structure EventEnvelope where
  type : String
  data : List (String × String)
  timestamp : String
  connection_id : Option String
  user_id : Option String
  priority : String
  category : String
  metadata : List (String × String)
  deriving DecidableEq, Repr

/-- Embeds `WebSocketEvent.to_dict` (`websocket_events.py:177-188`). -/
def WebSocketEvent.to_dict (e : WebSocketEvent) : EventEnvelope :=
  { type := e.type.value
    data := e.data
    timestamp := e.timestamp.isoformat
    connection_id := e.connection_id
    user_id := e.user_id
    priority := e.priority.value
    category := e.category.value
    metadata := e.metadata }

/-- Embeds `WebSocketEvent.from_dict` (`websocket_events.py:194-205`):
reads the type, payload, timestamp (after replacing `Z` by `+00:00`),
ids, priority and metadata back out of the envelope.  The `ValueError`
Python raises on an unknown type or priority or an unparsable timestamp
is modelled as `none`. -/
def WebSocketEvent.from_dict (env : EventEnvelope) : Option WebSocketEvent :=
  match EventType.fromValue env.type,
        Datetime.fromisoChars (replaceZ env.timestamp.toList),
        EventPriority.fromValue env.priority with
  | some ty, some ts, some pr =>
      some { type := ty
             data := env.data
             timestamp := ts
             connection_id := env.connection_id
             user_id := env.user_id
             priority := pr
             metadata := env.metadata }
  | _, _, _ => none

/-- Claim C9, confirmed: decoding the wire envelope of any event (with a
real datetime in its timestamp) restores the event exactly — in
particular the same type, data payload, priority and timestamp, the
timestamp passing through its canonical ISO-8601 rendering. -/
theorem C9_event_roundtrip (e : WebSocketEvent) (h : e.timestamp.Valid) :
    WebSocketEvent.from_dict (WebSocketEvent.to_dict e) = some e := by
  unfold WebSocketEvent.from_dict WebSocketEvent.to_dict
  have ht : (String.mk e.timestamp.isoChars).toList = e.timestamp.isoChars := rfl
  simp only [Datetime.isoformat, ht, replaceZ_isoChars, fromiso_isoformat e.timestamp h,
    eventType_fromValue_roundtrip, eventPriority_fromValue_roundtrip]

/-- Closed instance of C9: a concrete `message_received` event
round-trips through its envelope. -/
theorem C9_event_roundtrip_witness :
    WebSocketEvent.from_dict (WebSocketEvent.to_dict
      { type := EventType.message_received
        data := [("message_id", "m1"), ("content", "oi")]
        timestamp := { year := 2025, month := 1, day := 24, hour := 12,
                       minute := 30, second := 5, microsecond := 250000 }
        connection_id := some "c1"
        user_id := none
        priority := EventPriority.high
        metadata := [] }) =
    some { type := EventType.message_received
           data := [("message_id", "m1"), ("content", "oi")]
           timestamp := { year := 2025, month := 1, day := 24, hour := 12,
                          minute := 30, second := 5, microsecond := 250000 }
           connection_id := some "c1"
           user_id := none
           priority := EventPriority.high
           metadata := [] } :=
  C9_event_roundtrip _ (by constructor <;> norm_num)

/-! ## Users and roles

`User` and `Role` live in `backend/auth/jwt_auth.py`, which is not part of
the sources; only the fields the websocket code reads are embedded
(`user.id`, `user.username`, `user.role`), with the three role values that
`role_permissions` enumerates.  The identity provider
(`JWTAuthenticator.verify_token` / `verify_api_key`) is the external
collaborator of the spec and is passed in as a function
`String → Option User` (`none` models a rejected credential or provider
error). -/

inductive Role
  | admin
  | user
  | viewer
  deriving DecidableEq, Repr

structure User where
  id : String
  username : String
  role : Role
  deriving DecidableEq, Repr

/-- Embeds the `role_permissions` table of `WebSocketAuthenticator.__init__`
(`websocket_auth.py:180-191`). -/
def role_permissions : Role → List String
  | .admin => ["admin", "read", "write", "delete", "manage_instances",
      "send_messages", "view_logs", "manage_users", "system_control"]
  | .user => ["read", "write", "manage_instances", "send_messages"]
  | .viewer => ["read", "view_logs"]

/-! ## Sessions and the authenticator (`websocket_auth.py`) -/

/-- Embeds the `WebSocketSession` dataclass (`websocket_auth.py:32-69`);
times are integer clock readings. -/
structure WebSocketSession where
  user : User
  connection_id : String
  authenticated_at : Int
  last_activity : Int
  permissions : List String
  deriving DecidableEq, Repr

/-- Embeds `WebSocketSession.has_permission` (`websocket_auth.py:54-56`). -/
def WebSocketSession.has_permission (s : WebSocketSession) (p : String) : Bool :=
  s.permissions.contains p || s.permissions.contains "admin"

/-- The mutable state of `WebSocketAuthenticator` (`websocket_auth.py:163-197`)
as constructed by `WebSocketManager` and `main.py` — without a Redis
client, so the rate limiter runs on its local buckets (each bucket keeps
its request timestamps; the `last_cleanup` bookkeeping field only feeds the
background purge, which touches no session state).  The bounded audit list
is not consulted by any operation and is omitted. -/
structure WebSocketAuthenticator where
  active_sessions : List (String × WebSocketSession)
  user_sessions : List (String × List String)
  rate_buckets : List (String × List Int)
  deriving DecidableEq, Repr

def WebSocketAuthenticator.init : WebSocketAuthenticator :=
  { active_sessions := [], user_sessions := [], rate_buckets := [] }

/-- The bucket key `is_allowed` builds (`websocket_auth.py:87`). -/
def rateKey (user_id action : String) : String :=
  "ws_rate_limit:" ++ user_id ++ ":" ++ action

/-- Embeds `WebSocketRateLimiter.is_allowed` (`websocket_auth.py:84-93`) on
the local backend, at the level of the whole bucket table. -/
def WebSocketRateLimiter.is_allowed (buckets : List (String × List Int))
    (user_id action : String) (limit : Nat) (window now : Int) :
    Bool × List (String × List Int) :=
  let key := rateKey user_id action
  let r := WebSocketRateLimiter.check_local_rate_limit
    (alookupD buckets key []) limit window now
  (r.1, astore buckets key r.2)

/-- Embeds `WebSocketAuthenticator.remove_session`
(`websocket_auth.py:275-294`): drop the session, discard its connection id
from the per-user set, and delete that set entirely when it becomes
empty. -/
def WebSocketAuthenticator.remove_session (a : WebSocketAuthenticator)
    (connection_id : String) : WebSocketAuthenticator :=
  match alookup a.active_sessions connection_id with
  | none => a
  | some session =>
      let user_id := session.user.id
      let remaining := sdiscard (alookupD a.user_sessions user_id []) connection_id
      { a with
        active_sessions := aerase a.active_sessions connection_id
        user_sessions :=
          if remaining = [] then aerase a.user_sessions user_id
          else astore a.user_sessions user_id remaining }

/-- Embeds `WebSocketAuthenticator._create_session`
(`websocket_auth.py:251-273`): removes any existing session of the
connection, then stores a fresh session and indexes it under the user. -/
def WebSocketAuthenticator.create_session (a : WebSocketAuthenticator)
    (u : User) (connection_id : String) (now : Int) :
    WebSocketAuthenticator × WebSocketSession :=
  let a1 :=
    if (alookup a.active_sessions connection_id).isSome then
      a.remove_session connection_id
    else a
  let session : WebSocketSession :=
    { user := u
      connection_id := connection_id
      authenticated_at := now
      last_activity := now
      permissions := role_permissions u.role }
  ({ a1 with
      active_sessions := astore a1.active_sessions connection_id session
      user_sessions := astore a1.user_sessions u.id
        (sadd (alookupD a1.user_sessions u.id []) connection_id) },
    session)

/-- Embeds `WebSocketAuthenticator.authenticate` (`websocket_auth.py:199-236`)
when called with both of its parameters: verify the token with the
identity provider, check the tighter `auth` rate limit (10 per 60), then
create the session.  The error string accompanies the raised exception. -/
def WebSocketAuthenticator.authenticate (a : WebSocketAuthenticator)
    (verify_token : String → Option User) (token connection_id : String)
    (now : Int) : WebSocketAuthenticator × Except String User :=
  match verify_token token with
  | none => (a, Except.error "Token invalido")
  | some u =>
      let r := WebSocketRateLimiter.is_allowed a.rate_buckets u.id "auth" 10 60 now
      let a1 := { a with rate_buckets := r.2 }
      if r.1 then
        let c := a1.create_session u connection_id now
        (c.1, Except.ok u)
      else
        (a1, Except.error "Rate limit de autenticacao excedido")

/-- Embeds `WebSocketAuthenticator.authenticate_api_key`
(`websocket_auth.py:238-249`): verify with the API-key provider and create
the session (no rate-limit check on this path). -/
def WebSocketAuthenticator.authenticate_api_key (a : WebSocketAuthenticator)
    (verify_api_key : String → Option User) (key connection_id : String)
    (now : Int) : WebSocketAuthenticator × Except String User :=
  match verify_api_key key with
  | none => (a, Except.error "API key invalida")
  | some u =>
      let c := a.create_session u connection_id now
      (c.1, Except.ok u)

/-- Embeds `WebSocketAuthenticator.get_session` (`websocket_auth.py:296-307`):
a hit stamps `last_activity := now` and returns the session. -/
def WebSocketAuthenticator.get_session (a : WebSocketAuthenticator)
    (connection_id : String) (now : Int) :
    WebSocketAuthenticator × Option WebSocketSession :=
  match alookup a.active_sessions connection_id with
  | none => (a, none)
  | some s =>
      let s2 := { s with last_activity := now }
      ({ a with active_sessions := astore a.active_sessions connection_id s2 },
        some s2)

/-- Embeds `WebSocketAuthenticator.verify_permission`
(`websocket_auth.py:309-316`). -/
def WebSocketAuthenticator.verify_permission (a : WebSocketAuthenticator)
    (connection_id permission : String) (now : Int) :
    WebSocketAuthenticator × Bool :=
  let r := a.get_session connection_id now
  match r.2 with
  | none => (r.1, false)
  | some s => (r.1, s.has_permission permission)

/-- Embeds `WebSocketAuthenticator.check_rate_limit`
(`websocket_auth.py:318-326`). -/
def WebSocketAuthenticator.check_rate_limit (a : WebSocketAuthenticator)
    (connection_id action : String) (limit : Nat) (window now : Int) :
    WebSocketAuthenticator × Bool :=
  let r := a.get_session connection_id now
  match r.2 with
  | none => (r.1, false)
  | some s =>
      let rl := WebSocketRateLimiter.is_allowed r.1.rate_buckets s.user.id action
        limit window now
      ({ r.1 with rate_buckets := rl.2 }, rl.1)

/-- Embeds `WebSocketAuthenticator.revoke_user_sessions`
(`websocket_auth.py:341-352`): removes every session of the user and
returns how many connection ids were listed for them. -/
def WebSocketAuthenticator.revoke_user_sessions (a : WebSocketAuthenticator)
    (user_id : String) : WebSocketAuthenticator × Nat :=
  match alookup a.user_sessions user_id with
  | none => (a, 0)
  | some connection_ids =>
      (connection_ids.foldl (fun acc c => acc.remove_session c) a,
        connection_ids.length)

/-- Embeds `WebSocketAuthenticator.cleanup_expired_sessions`
(`websocket_auth.py:354-367`): collect the connection ids whose idle time
strictly exceeds `max_idle_time`, then remove each. -/
def WebSocketAuthenticator.cleanup_expired_sessions (a : WebSocketAuthenticator)
    (max_idle_time now : Int) : WebSocketAuthenticator :=
  let expired := (a.active_sessions.filter
    (fun p => decide (max_idle_time < now - p.2.last_activity))).map Prod.fst
  expired.foldl (fun acc c => acc.remove_session c) a

/-! ## Connection registry (`websocket_manager.py`) -/

/-- Embeds `ConnectionState` (`websocket_manager.py:36-43`). -/
inductive ConnectionState
  | connecting
  | connected
  | authenticated
  | disconnecting
  | disconnected
  | failed
  deriving DecidableEq, Repr

/-- Embeds `SubscriptionType` (`websocket_manager.py:46-53`). -/
inductive SubscriptionType
  | all
  | instance_status
  | messages
  | agent_events
  | system_events
  | user_events
  deriving DecidableEq, Repr

def SubscriptionType.value : SubscriptionType → String
  | .all => "all"
  | .instance_status => "instance_status"
  | .messages => "messages"
  | .agent_events => "agent_events"
  | .system_events => "system_events"
  | .user_events => "user_events"

/-- Python `SubscriptionType(s)`: `none` models the `ValueError` on an
unknown tag. -/
def SubscriptionType.fromValue : String → Option SubscriptionType
  | "all" => some .all
  | "instance_status" => some .instance_status
  | "messages" => some .messages
  | "agent_events" => some .agent_events
  | "system_events" => some .system_events
  | "user_events" => some .user_events
  | _ => none

/-- Embeds the `WebSocketConnection` dataclass (`websocket_manager.py:56-69`);
the live socket handle itself stays outside the model — whether a send on
it succeeds is an input (`ok`) to each operation that sends. -/
structure WebSocketConnection where
  id : String
  user : Option User
  state : ConnectionState
  last_ping : Option Int
  last_pong : Option Int
  subscriptions : List SubscriptionType
  message_count : Nat
  error_count : Nat
  deriving DecidableEq, Repr

/-- Embeds `WebSocketConnection.is_alive` (`websocket_manager.py:75-77`). -/
def WebSocketConnection.is_alive (c : WebSocketConnection) : Bool :=
  c.state = ConnectionState.connected || c.state = ConnectionState.authenticated

/-- The mutable state of `ConnectionManager` (`websocket_manager.py:100-123`). -/
structure ConnectionManager where
  connections : List (String × WebSocketConnection)
  user_connections : List (String × List String)
  subscription_connections : List (SubscriptionType × List String)
  total_connections : Nat
  total_messages : Nat
  deriving DecidableEq, Repr

def ConnectionManager.init : ConnectionManager :=
  { connections := [], user_connections := [], subscription_connections := [],
    total_connections := 0, total_messages := 0 }

/-- An event as the registry sends it (type plus payload dictionary); the
envelope details of §6 are the subject of the event-model section. -/
structure OutEvent where
  type : EventType
  data : List (String × String)
  deriving DecidableEq, Repr

/-- Result of one send: new registry state, messages actually written to
sockets (receiver id with the event), and the returned boolean. -/
structure SendResult where
  cm : ConnectionManager
  sent : List (String × OutEvent)
  delivered : Bool
  deriving Repr

/-- Result of a broadcast loop: new registry state, messages written, and
the returned delivered count. -/
structure BroadcastResult where
  cm : ConnectionManager
  sent : List (String × OutEvent)
  count : Nat
  deriving Repr

/-- Embeds `ConnectionManager.disconnect` (`websocket_manager.py:156-181`):
a no-op on an unknown id, else closes the socket (an external effect),
removes the id from the owner's user index (deleting the entry when it
empties), discards it from the index entry of each of its subscription
tags, and deletes the connection. -/
def ConnectionManager.disconnect (cm : ConnectionManager)
    (connection_id : String) : ConnectionManager :=
  match alookup cm.connections connection_id with
  | none => cm
  | some conn =>
      let cm1 :=
        match conn.user with
        | some u =>
            let remaining := sdiscard (alookupD cm.user_connections u.id [])
              connection_id
            { cm with user_connections :=
                if remaining = [] then aerase cm.user_connections u.id
                else astore cm.user_connections u.id remaining }
        | none => cm
      let sc2 := conn.subscriptions.foldl
        (fun sc sub => astore sc sub (sdiscard (alookupD sc sub []) connection_id))
        cm1.subscription_connections
      let cm2 := { cm1 with subscription_connections := sc2 }
      { cm2 with connections := aerase cm2.connections connection_id }

/-- Embeds `ConnectionManager.send_to_connection`
(`websocket_manager.py:238-258`): `false` for an unknown or not-alive id;
otherwise the JSON dump of the event is written to the socket — on
success the counters are bumped and `true` returned, on failure the
error counter is bumped and the connection is disconnected with code 1011
(`ok connection_id` is whether this socket write succeeds). -/
def ConnectionManager.send_to_connection (cm : ConnectionManager)
    (ok : String → Bool) (connection_id : String) (event : OutEvent) : SendResult :=
  match alookup cm.connections connection_id with
  | none => ⟨cm, [], false⟩
  | some conn =>
      if conn.is_alive then
        if ok connection_id then
          let conn2 := { conn with message_count := conn.message_count + 1 }
          ⟨{ cm with
              connections := astore cm.connections connection_id conn2
              total_messages := cm.total_messages + 1 },
            [(connection_id, event)], true⟩
        else
          let conn2 := { conn with error_count := conn.error_count + 1 }
          let cm1 := { cm with connections := astore cm.connections connection_id conn2 }
          ⟨cm1.disconnect connection_id, [], false⟩
      else ⟨cm, [], false⟩

/-- Embeds `ConnectionManager.connect` (`websocket_manager.py:125-154`):
accept the socket, store a fresh `Connected` connection under the given
id (Python assigns `str(uuid.uuid4())` when the caller passes none — the
id is an input here), bump the cumulative counter, and send the
`CONNECTION_ESTABLISHED` welcome to that connection. -/
def ConnectionManager.connect (cm : ConnectionManager) (ok : String → Bool)
    (connection_id : String) (now : Int) :
    ConnectionManager × List (String × OutEvent) :=
  let conn : WebSocketConnection :=
    { id := connection_id, user := none, state := .connected,
      last_ping := none, last_pong := none, subscriptions := [],
      message_count := 0, error_count := 0 }
  let cm1 := { cm with
    connections := astore cm.connections connection_id conn
    total_connections := cm.total_connections + 1 }
  let r := cm1.send_to_connection ok connection_id
    { type := .connection_established
      data := [("connection_id", connection_id), ("timestamp", toString now),
               ("message", "Conexao estabelecida com sucesso")] }
  (r.cm, r.sent)

/-- Embeds `ConnectionManager.authenticate_connection`
(`websocket_manager.py:183-205`): `ValueError` on an unknown id, else set
the user and the `Authenticated` state, index the connection under the
user, and send `AUTHENTICATION_SUCCESS`. -/
def ConnectionManager.authenticate_connection (cm : ConnectionManager)
    (ok : String → Bool) (connection_id : String) (u : User) (now : Int) :
    Except String (ConnectionManager × List (String × OutEvent)) :=
  match alookup cm.connections connection_id with
  | none => Except.error "Conexao nao encontrada"
  | some conn =>
      let conn2 := { conn with user := some u, state := ConnectionState.authenticated }
      let cm1 := { cm with connections := astore cm.connections connection_id conn2 }
      let uc2 := astore cm1.user_connections u.id
        (sadd (alookupD cm1.user_connections u.id []) connection_id)
      let cm2 := { cm1 with user_connections := uc2 }
      let r := cm2.send_to_connection ok connection_id
        { type := .authentication_success
          data := [("user_id", u.id), ("username", u.username),
                   ("timestamp", toString now)] }
      Except.ok (r.cm, r.sent)

/-- The `authenticate_connection` operation as a state update (the `ValueError` on an
unknown id propagates to the caller before any mutation). -/
def ConnectionManager.authenticate_connection_state (cm : ConnectionManager)
    (ok : String → Bool) (connection_id : String) (u : User) (now : Int) :
    ConnectionManager :=
  match cm.authenticate_connection ok connection_id u now with
  | Except.ok r => r.1
  | Except.error _ => cm

/-- Embeds `ConnectionManager.subscribe` (`websocket_manager.py:207-225`). -/
def ConnectionManager.subscribe (cm : ConnectionManager) (ok : String → Bool)
    (connection_id : String) (sub : SubscriptionType) (now : Int) :
    Except String (ConnectionManager × List (String × OutEvent)) :=
  match alookup cm.connections connection_id with
  | none => Except.error "Conexao nao encontrada"
  | some conn =>
      let conn2 := { conn with subscriptions := sadd conn.subscriptions sub }
      let sc2 := astore cm.subscription_connections sub
        (sadd (alookupD cm.subscription_connections sub []) connection_id)
      let cm1 := { cm with
        connections := astore cm.connections connection_id conn2
        subscription_connections := sc2 }
      let r := cm1.send_to_connection ok connection_id
        { type := .subscription_confirmed
          data := [("subscription_type", sub.value), ("timestamp", toString now)] }
      Except.ok (r.cm, r.sent)

def ConnectionManager.subscribe_state (cm : ConnectionManager) (ok : String → Bool)
    (connection_id : String) (sub : SubscriptionType) (now : Int) :
    ConnectionManager :=
  match cm.subscribe ok connection_id sub now with
  | Except.ok r => r.1
  | Except.error _ => cm

/-- Embeds `ConnectionManager.unsubscribe` (`websocket_manager.py:227-236`). -/
def ConnectionManager.unsubscribe (cm : ConnectionManager)
    (connection_id : String) (sub : SubscriptionType) : ConnectionManager :=
  match alookup cm.connections connection_id with
  | none => cm
  | some conn =>
      let conn2 := { conn with subscriptions := sdiscard conn.subscriptions sub }
      let sc2 := astore cm.subscription_connections sub
        (sdiscard (alookupD cm.subscription_connections sub []) connection_id)
      { cm with
        connections := astore cm.connections connection_id conn2
        subscription_connections := sc2 }

/-- The broadcast loop shared by `send_to_user`,
`broadcast_to_subscription` and `broadcast_to_all`: send to each id of the
snapshot in turn, counting the successful sends. -/
def ConnectionManager.send_loop (ok : String → Bool) (event : OutEvent) :
    ConnectionManager → List String → BroadcastResult
  | cm, [] => ⟨cm, [], 0⟩
  | cm, cid :: rest =>
      let r := cm.send_to_connection ok cid event
      let rr := ConnectionManager.send_loop ok event r.cm rest
      ⟨rr.cm, r.sent ++ rr.sent, (if r.delivered then 1 else 0) + rr.count⟩

/-- Embeds `ConnectionManager.send_to_user` (`websocket_manager.py:260-272`). -/
def ConnectionManager.send_to_user (cm : ConnectionManager) (ok : String → Bool)
    (user_id : String) (event : OutEvent) : BroadcastResult :=
  match alookup cm.user_connections user_id with
  | none => ⟨cm, [], 0⟩
  | some ids => ConnectionManager.send_loop ok event cm ids

/-- Embeds `ConnectionManager.broadcast_to_subscription`
(`websocket_manager.py:274-286`). -/
def ConnectionManager.broadcast_to_subscription (cm : ConnectionManager)
    (ok : String → Bool) (sub : SubscriptionType) (event : OutEvent) :
    BroadcastResult :=
  match alookup cm.subscription_connections sub with
  | none => ⟨cm, [], 0⟩
  | some ids => ConnectionManager.send_loop ok event cm ids

/-- Embeds `ConnectionManager.broadcast_to_all`
(`websocket_manager.py:288-297`). -/
def ConnectionManager.broadcast_to_all (cm : ConnectionManager)
    (ok : String → Bool) (event : OutEvent) : BroadcastResult :=
  ConnectionManager.send_loop ok event cm (akeys cm.connections)

/-- Embeds `ConnectionManager.handle_ping` (`websocket_manager.py:299-311`). -/
def ConnectionManager.handle_ping (cm : ConnectionManager) (ok : String → Bool)
    (connection_id : String) (now : Int) :
    ConnectionManager × List (String × OutEvent) :=
  match alookup cm.connections connection_id with
  | none => (cm, [])
  | some conn =>
      let conn2 := { conn with last_ping := some now }
      let cm1 := { cm with connections := astore cm.connections connection_id conn2 }
      let r := cm1.send_to_connection ok connection_id
        { type := .pong, data := [("timestamp", toString now)] }
      (r.cm, r.sent)

/-- Embeds `ConnectionManager.handle_pong` (`websocket_manager.py:313-319`). -/
def ConnectionManager.handle_pong (cm : ConnectionManager)
    (connection_id : String) (now : Int) : ConnectionManager :=
  match alookup cm.connections connection_id with
  | none => cm
  | some conn =>
      let conn2 := { conn with last_pong := some now }
      { cm with connections := astore cm.connections connection_id conn2 }

/-! ## The manager and the in-band control plane (`websocket_manager.py`) -/

/-- The combined state of `WebSocketManager` (`websocket_manager.py:471-484`):
the registry plus the authenticator it constructs (without a Redis
client). -/
structure WebSocketManager where
  connection_manager : ConnectionManager
  authenticator : WebSocketAuthenticator
  deriving Repr

def WebSocketManager.init : WebSocketManager :=
  { connection_manager := ConnectionManager.init
    authenticator := WebSocketAuthenticator.init }

/-- Embeds `WebSocketManager._handle_authenticate`
(`websocket_manager.py:548-571`).  A missing or empty (falsy) token sends
`AUTHENTICATION_FAILED` directly.  When a token is supplied, line 562
executes `await self.authenticator.authenticate(token)`, but
`WebSocketAuthenticator.authenticate(self, token, connection_id)`
(`websocket_auth.py:199`) requires the connection id as well, so the call
raises `TypeError` inside the `try` block before any verification, rate
limiting or session creation runs; the `except` branch then sends
`AUTHENTICATION_FAILED` with the exception text.  The success path of the
handler (`authenticate_connection`) is therefore unreachable. -/
def WebSocketManager.handle_authenticate (m : WebSocketManager)
    (ok : String → Bool) (connection_id : String)
    (data : List (String × String)) : WebSocketManager × List (String × OutEvent) :=
  match alookup data "token" with
  | none =>
      let r := m.connection_manager.send_to_connection ok connection_id
        { type := .authentication_failed, data := [("error", "Token nao fornecido")] }
      ({ m with connection_manager := r.cm }, r.sent)
  | some token =>
      if token = "" then
        let r := m.connection_manager.send_to_connection ok connection_id
          { type := .authentication_failed, data := [("error", "Token nao fornecido")] }
        ({ m with connection_manager := r.cm }, r.sent)
      else
        let r := m.connection_manager.send_to_connection ok connection_id
          { type := .authentication_failed
            data := [("error",
              "authenticate() missing 1 required positional argument: connection_id")] }
        ({ m with connection_manager := r.cm }, r.sent)

/-- Embeds `WebSocketManager._handle_subscribe`
(`websocket_manager.py:573-583`): a missing or unknown tag is dropped
silently, a valid one is forwarded to the registry. -/
def WebSocketManager.handle_subscribe (m : WebSocketManager) (ok : String → Bool)
    (connection_id : String) (data : List (String × String)) (now : Int) :
    WebSocketManager :=
  match alookup data "subscription_type" with
  | none => m
  | some tag =>
      match SubscriptionType.fromValue tag with
      | none => m
      | some sub =>
          { m with connection_manager :=
              m.connection_manager.subscribe_state ok connection_id sub now }

/-- Embeds `WebSocketManager._handle_unsubscribe`
(`websocket_manager.py:585-595`). -/
def WebSocketManager.handle_unsubscribe (m : WebSocketManager)
    (connection_id : String) (data : List (String × String)) : WebSocketManager :=
  match alookup data "subscription_type" with
  | none => m
  | some tag =>
      match SubscriptionType.fromValue tag with
      | none => m
      | some sub =>
          { m with connection_manager :=
              m.connection_manager.unsubscribe connection_id sub }

/-! ## System steps and reachability

One constructor per public entry point of the subsystem: the endpoint flow
of `main.py` (handshake authentication, `connect`,
`authenticate_connection`, per-frame `_handle_message` dispatch, the
`finally` disconnect), the registry's broadcast primitives, and the
authenticator operations of §4.2.  The identity providers `vt`
(bearer-token) and `va` (API-key) are the external collaborator; `ok`
tells which socket writes succeed during the step; `now` is the clock. -/

inductive SystemStep (vt va : String → Option User) :
    WebSocketManager → WebSocketManager → Prop
  | connect (m : WebSocketManager) (ok : String → Bool) (cid : String) (now : Int) :
      SystemStep vt va m
        { m with connection_manager := (m.connection_manager.connect ok cid now).1 }
  | disconnect (m : WebSocketManager) (cid : String) :
      SystemStep vt va m
        { m with connection_manager := m.connection_manager.disconnect cid }
  | authenticate_connection (m : WebSocketManager) (ok : String → Bool)
      (cid : String) (u : User) (now : Int) :
      SystemStep vt va m
        { m with connection_manager :=
            m.connection_manager.authenticate_connection_state ok cid u now }
  | handle_authenticate (m : WebSocketManager) (ok : String → Bool)
      (cid : String) (data : List (String × String)) :
      SystemStep vt va m (m.handle_authenticate ok cid data).1
  | handle_subscribe (m : WebSocketManager) (ok : String → Bool) (cid : String)
      (data : List (String × String)) (now : Int) :
      SystemStep vt va m (m.handle_subscribe ok cid data now)
  | handle_unsubscribe (m : WebSocketManager) (cid : String)
      (data : List (String × String)) :
      SystemStep vt va m (m.handle_unsubscribe cid data)
  | handle_ping (m : WebSocketManager) (ok : String → Bool) (cid : String) (now : Int) :
      SystemStep vt va m
        { m with connection_manager :=
            (m.connection_manager.handle_ping ok cid now).1 }
  | handle_pong (m : WebSocketManager) (cid : String) (now : Int) :
      SystemStep vt va m
        { m with connection_manager := m.connection_manager.handle_pong cid now }
  | send_to_user (m : WebSocketManager) (ok : String → Bool) (uid : String)
      (event : OutEvent) :
      SystemStep vt va m
        { m with connection_manager :=
            (m.connection_manager.send_to_user ok uid event).cm }
  | broadcast_to_subscription (m : WebSocketManager) (ok : String → Bool)
      (sub : SubscriptionType) (event : OutEvent) :
      SystemStep vt va m
        { m with connection_manager :=
            (m.connection_manager.broadcast_to_subscription ok sub event).cm }
  | broadcast_to_all (m : WebSocketManager) (ok : String → Bool) (event : OutEvent) :
      SystemStep vt va m
        { m with connection_manager :=
            (m.connection_manager.broadcast_to_all ok event).cm }
  | auth_authenticate (m : WebSocketManager) (token cid : String) (now : Int) :
      SystemStep vt va m
        { m with authenticator :=
            (m.authenticator.authenticate vt token cid now).1 }
  | auth_api_key (m : WebSocketManager) (key cid : String) (now : Int) :
      SystemStep vt va m
        { m with authenticator :=
            (m.authenticator.authenticate_api_key va key cid now).1 }
  | remove_session (m : WebSocketManager) (cid : String) :
      SystemStep vt va m
        { m with authenticator := m.authenticator.remove_session cid }
  | get_session (m : WebSocketManager) (cid : String) (now : Int) :
      SystemStep vt va m
        { m with authenticator := (m.authenticator.get_session cid now).1 }
  | verify_permission (m : WebSocketManager) (cid perm : String) (now : Int) :
      SystemStep vt va m
        { m with authenticator := (m.authenticator.verify_permission cid perm now).1 }
  | check_rate_limit (m : WebSocketManager) (cid action : String)
      (limit : Nat) (window now : Int) :
      SystemStep vt va m
        { m with authenticator :=
            (m.authenticator.check_rate_limit cid action limit window now).1 }
  | revoke_user_sessions (m : WebSocketManager) (uid : String) :
      SystemStep vt va m
        { m with authenticator := (m.authenticator.revoke_user_sessions uid).1 }
  | cleanup_expired_sessions (m : WebSocketManager) (max_idle now : Int) :
      SystemStep vt va m
        { m with authenticator :=
            m.authenticator.cleanup_expired_sessions max_idle now }

/-- The states the system can reach from a fresh manager. -/
def Reachable (vt va : String → Option User) (m : WebSocketManager) : Prop :=
  Relation.ReflTransGen (SystemStep vt va) WebSocketManager.init m

/-! ## Concrete fixtures (identity provider and sample states) -/

/-- A sample user of the `USER` role. -/
def u0 : User := { id := "u1", username := "alice", role := Role.user }

/-- A bearer-token provider accepting exactly the token `tok` for `u0`. -/
def vt0 : String → Option User := fun t => if t = "tok" then some u0 else none

/-- An API-key provider rejecting everything. -/
def va0 : String → Option User := fun _ => none

/-- Every socket write succeeds. -/
def okAll : String → Bool := fun _ => true

/-- A manager holding one freshly connected socket `c1`. -/
def M0 : WebSocketManager :=
  { connection_manager := (ConnectionManager.init.connect okAll "c1" 0).1
    authenticator := WebSocketAuthenticator.init }

/-! ## Effect of a single send -/

theorem send_to_connection_ok (cm : ConnectionManager) (ok : String → Bool)
    (cid : String) (ev : OutEvent) (conn : WebSocketConnection)
    (h1 : alookup cm.connections cid = some conn)
    (h2 : conn.is_alive = true) (h3 : ok cid = true) :
    cm.send_to_connection ok cid ev =
      ⟨{ cm with
          connections := astore cm.connections cid
            { conn with message_count := conn.message_count + 1 }
          total_messages := cm.total_messages + 1 },
        [(cid, ev)], true⟩ := by
  unfold ConnectionManager.send_to_connection
  rw [h1]
  simp [h2, h3]

theorem send_to_connection_dead (cm : ConnectionManager) (ok : String → Bool)
    (cid : String) (ev : OutEvent) (conn : WebSocketConnection)
    (h1 : alookup cm.connections cid = some conn)
    (h2 : conn.is_alive = true) (h3 : ok cid = false) :
    cm.send_to_connection ok cid ev =
      ⟨({ cm with connections :=
            astore cm.connections cid { conn with error_count := conn.error_count + 1 } } :
          ConnectionManager).disconnect cid,
        [], false⟩ := by
  unfold ConnectionManager.send_to_connection
  rw [h1]
  simp [h2, h3]

theorem send_to_connection_missing (cm : ConnectionManager) (ok : String → Bool)
    (cid : String) (ev : OutEvent)
    (h1 : alookup cm.connections cid = none) :
    cm.send_to_connection ok cid ev = ⟨cm, [], false⟩ := by
  unfold ConnectionManager.send_to_connection
  rw [h1]

theorem send_to_connection_not_alive (cm : ConnectionManager) (ok : String → Bool)
    (cid : String) (ev : OutEvent) (conn : WebSocketConnection)
    (h1 : alookup cm.connections cid = some conn)
    (h2 : conn.is_alive = false) :
    cm.send_to_connection ok cid ev = ⟨cm, [], false⟩ := by
  unfold ConnectionManager.send_to_connection
  rw [h1]
  simp [h2]

/-- A successful send writes exactly its event to its target, bumps only
that connection's message counter, and leaves every index and every other
connection untouched. -/
theorem send_event_ok_effect (cm : ConnectionManager) (ok : String → Bool)
    (cid : String) (ev : OutEvent) (conn : WebSocketConnection)
    (hconn : alookup cm.connections cid = some conn)
    (halive : conn.is_alive = true) (hok : ok cid = true) :
    (cm.send_to_connection ok cid ev).sent = [(cid, ev)] ∧
    alookup (cm.send_to_connection ok cid ev).cm.connections cid =
      some { conn with message_count := conn.message_count + 1 } ∧
    (∀ d, d ≠ cid → alookup (cm.send_to_connection ok cid ev).cm.connections d =
      alookup cm.connections d) ∧
    (cm.send_to_connection ok cid ev).cm.user_connections = cm.user_connections ∧
    (cm.send_to_connection ok cid ev).cm.subscription_connections =
      cm.subscription_connections := by
  rw [send_to_connection_ok cm ok cid ev conn hconn halive hok]
  refine ⟨rfl, ?_, ?_, rfl, rfl⟩
  · exact alookup_astore_self cm.connections cid _
  · intro d hd
    exact alookup_astore_ne cm.connections cid d _ hd

/-! ## C1 and C5: the in-band authenticate handler -/

/-- Claim C5, confirmed: for a registered live connection whose socket write
succeeds, an in-band `authenticate` control event with an invalid
credential (missing token, or a token the provider rejects) never moves
the connection to `Authenticated` (its state and user are unchanged),
emits exactly one `authentication_failed` event to that connection,
leaves the session store untouched, and neither removes that connection
nor any other. -/
theorem C5_invalid_credential_failure_envelope
    (m : WebSocketManager) (vt : String → Option User) (ok : String → Bool)
    (cid : String) (data : List (String × String)) (conn : WebSocketConnection)
    (hconn : alookup m.connection_manager.connections cid = some conn)
    (halive : conn.is_alive = true) (hok : ok cid = true)
    (hbad : ∀ t, alookup data "token" = some t → vt t = none) :
    (∃ msg, (m.handle_authenticate ok cid data).2 =
      [(cid, { type := EventType.authentication_failed,
               data := [("error", msg)] })]) ∧
    (m.handle_authenticate ok cid data).1.authenticator = m.authenticator ∧
    (∃ conn2,
      alookup (m.handle_authenticate ok cid data).1.connection_manager.connections
        cid = some conn2 ∧
      conn2.state = conn.state ∧ conn2.user = conn.user) ∧
    (∀ d, d ≠ cid →
      alookup (m.handle_authenticate ok cid data).1.connection_manager.connections
        d = alookup m.connection_manager.connections d) := by
  have key : ∀ msg : String,
      (m.connection_manager.send_to_connection ok cid
        ⟨EventType.authentication_failed, [("error", msg)]⟩).sent =
        [(cid, ⟨EventType.authentication_failed, [("error", msg)]⟩)] ∧
      alookup (m.connection_manager.send_to_connection ok cid
        ⟨EventType.authentication_failed, [("error", msg)]⟩).cm.connections cid =
        some { conn with message_count := conn.message_count + 1 } ∧
      (∀ d, d ≠ cid → alookup (m.connection_manager.send_to_connection ok cid
        ⟨EventType.authentication_failed, [("error", msg)]⟩).cm.connections d =
        alookup m.connection_manager.connections d) := by
    intro msg
    obtain ⟨e1, e2, e3, _, _⟩ := send_event_ok_effect m.connection_manager ok cid
      ⟨EventType.authentication_failed, [("error", msg)]⟩ conn hconn halive hok
    exact ⟨e1, e2, e3⟩
  unfold WebSocketManager.handle_authenticate
  rcases htok : alookup data "token" with _ | t
  · obtain ⟨e1, e2, e3⟩ := key "Token nao fornecido"
    exact ⟨⟨"Token nao fornecido", e1⟩, rfl,
      ⟨{ conn with message_count := conn.message_count + 1 }, e2, rfl, rfl⟩, e3⟩
  · dsimp only
    by_cases ht : t = ""
    · rw [if_pos ht]
      obtain ⟨e1, e2, e3⟩ := key "Token nao fornecido"
      exact ⟨⟨"Token nao fornecido", e1⟩, rfl,
        ⟨{ conn with message_count := conn.message_count + 1 }, e2, rfl, rfl⟩, e3⟩
    · rw [if_neg ht]
      obtain ⟨e1, e2, e3⟩ := key
        "authenticate() missing 1 required positional argument: connection_id"
      exact ⟨⟨"authenticate() missing 1 required positional argument: connection_id",
          e1⟩, rfl,
        ⟨{ conn with message_count := conn.message_count + 1 }, e2, rfl, rfl⟩, e3⟩

/-- Closed instance of C5 at the sample state: a rejected token on
connection `c1` yields one `authentication_failed` and no state change. -/
theorem C5_invalid_credential_witness :
    (∃ msg, (M0.handle_authenticate okAll "c1" [("token", "bad")]).2 =
      [("c1", { type := EventType.authentication_failed,
                data := [("error", msg)] })]) ∧
    (M0.handle_authenticate okAll "c1" [("token", "bad")]).1.authenticator =
      M0.authenticator ∧
    (∃ conn2,
      alookup (M0.handle_authenticate okAll "c1"
        [("token", "bad")]).1.connection_manager.connections "c1" = some conn2 ∧
      conn2.state = ConnectionState.connected ∧ conn2.user = none) ∧
    (∀ d, d ≠ "c1" →
      alookup (M0.handle_authenticate okAll "c1"
        [("token", "bad")]).1.connection_manager.connections d =
        alookup M0.connection_manager.connections d) := by
  have h := C5_invalid_credential_failure_envelope M0 vt0 okAll "c1"
    [("token", "bad")]
    { id := "c1", user := none, state := ConnectionState.connected,
      last_ping := none, last_pong := none, subscriptions := [],
      message_count := 1, error_count := 0 }
    (by decide) (by decide) (by decide) (by decide)
  obtain ⟨h1, h2, h3, h4⟩ := h
  exact ⟨h1, h2, by simpa using h3, h4⟩

/-- Claim C1, a code bug: even when the identity provider accepts the
presented credential and the connection is registered, processing the
in-band `authenticate` event emits `authentication_failed`, creates no
session, and leaves the connection un-authenticated — the handler's call
`authenticator.authenticate(token)` at `websocket_manager.py:562` omits
the required `connection_id` parameter, so its success path can never
execute. -/
theorem C1_handle_authenticate_never_succeeds :
    vt0 "tok" = some u0 ∧
    (alookup M0.connection_manager.connections "c1").map
      (fun c => c.state) = some ConnectionState.connected ∧
    (M0.handle_authenticate okAll "c1" [("token", "tok")]).2.map
      (fun p => (p.1, p.2.type)) = [("c1", EventType.authentication_failed)] ∧
    ((M0.handle_authenticate okAll "c1"
      [("token", "tok")]).1.authenticator).active_sessions = [] ∧
    (alookup (M0.handle_authenticate okAll "c1"
        [("token", "tok")]).1.connection_manager.connections "c1").map
      (fun c => c.state) = some ConnectionState.connected := by
  decide

/-! ## C7: connect and id freshness -/

/-- A registry whose connection `a` has subscribed to `messages` (built by
the registry operations themselves). -/
def CMdup : ConnectionManager :=
  ((ConnectionManager.init.connect okAll "a" 0).1).subscribe_state okAll "a"
    SubscriptionType.messages 0

/-- Claim C7 as written is refuted here: `connect` never checks the id it
is handed (`uuid4` output or the caller's `connection_id` argument)
against the registry; connecting with the already-live id `a` silently
replaces the prior entry, so the id is not fresh and the prior registry
entry changes. -/
theorem C7_connect_duplicate_id_overwrites :
    "a" ∈ akeys CMdup.connections ∧
    alookup ((CMdup.connect okAll "a" 5).1.connections) "a" ≠
      alookup CMdup.connections "a" := by
  decide

/-- Claim C7, amended: provided the id handed to `connect` is not already
live — which `uuid4` generation makes overwhelmingly likely but the code
does not check — the new connection is stored in state `Connected` with no
user and no subscriptions, every prior registry entry is unchanged, no two
live connections share an id afterwards, and the indices are untouched. -/
theorem C7_connect_fresh_id (cm : ConnectionManager) (ok : String → Bool)
    (cid : String) (now : Int)
    (hfresh : cid ∉ akeys cm.connections)
    (hnodup : (akeys cm.connections).Nodup)
    (hok : ok cid = true) :
    (∃ conn, alookup (cm.connect ok cid now).1.connections cid = some conn ∧
      conn.state = ConnectionState.connected ∧ conn.user = none ∧
      conn.subscriptions = []) ∧
    (∀ d, d ≠ cid → alookup (cm.connect ok cid now).1.connections d =
      alookup cm.connections d) ∧
    akeys (cm.connect ok cid now).1.connections = akeys cm.connections ++ [cid] ∧
    (akeys (cm.connect ok cid now).1.connections).Nodup ∧
    (cm.connect ok cid now).1.user_connections = cm.user_connections ∧
    (cm.connect ok cid now).1.subscription_connections =
      cm.subscription_connections := by
  have hkeys : ∀ v : WebSocketConnection,
      akeys (astore cm.connections cid v) = akeys cm.connections ++ [cid] :=
    fun v => akeys_astore_not_mem cm.connections cid v hfresh
  have hmem : cid ∈ akeys (astore cm.connections cid
      { id := cid, user := none, state := ConnectionState.connected,
        last_ping := none, last_pong := none, subscriptions := [],
        message_count := 0, error_count := 0 }) := by
    rw [hkeys]
    exact List.mem_append.mpr (Or.inr (List.mem_singleton.mpr rfl))
  unfold ConnectionManager.connect
  dsimp only
  rw [send_to_connection_ok _ ok cid _
    { id := cid, user := none, state := ConnectionState.connected,
      last_ping := none, last_pong := none, subscriptions := [],
      message_count := 0, error_count := 0 }
    (alookup_astore_self cm.connections cid _) rfl hok]
  refine ⟨⟨_, alookup_astore_self _ _ _, rfl, rfl, rfl⟩, ?_, ?_, ?_, rfl, rfl⟩
  · intro d hd
    rw [alookup_astore_ne _ _ _ _ hd, alookup_astore_ne _ _ _ _ hd]
  · rw [akeys_astore_mem _ _ _ hmem, hkeys]
  · exact akeys_nodup_astore _ _ _ (akeys_nodup_astore _ _ _ hnodup)

/-- Closed instance of the amended C7: connecting a fresh id `b` to the
one-connection registry behaves as stated. -/
theorem C7_connect_fresh_id_witness :
    (∃ conn, alookup (CMdup.connect okAll "b" 5).1.connections "b" = some conn ∧
      conn.state = ConnectionState.connected ∧ conn.user = none ∧
      conn.subscriptions = []) ∧
    (∀ d, d ≠ "b" → alookup (CMdup.connect okAll "b" 5).1.connections d =
      alookup CMdup.connections d) ∧
    akeys (CMdup.connect okAll "b" 5).1.connections =
      akeys CMdup.connections ++ ["b"] ∧
    (akeys (CMdup.connect okAll "b" 5).1.connections).Nodup ∧
    (CMdup.connect okAll "b" 5).1.user_connections = CMdup.user_connections ∧
    (CMdup.connect okAll "b" 5).1.subscription_connections =
      CMdup.subscription_connections :=
  C7_connect_fresh_id CMdup okAll "b" 5 (by decide) (by decide) (by decide)

/-! ## Set and removal lemmas -/

theorem mem_sdiscard {α : Type} [DecidableEq α] (l : List α) (x y : α) :
    y ∈ sdiscard l x ↔ y ∈ l ∧ y ≠ x := by
  simp [sdiscard]

theorem sdiscard_nodup {α : Type} [DecidableEq α] (l : List α) (x : α)
    (h : l.Nodup) : (sdiscard l x).Nodup :=
  h.filter _

theorem mem_sadd {α : Type} [DecidableEq α] (l : List α) (x y : α) :
    y ∈ sadd l x ↔ y ∈ l ∨ y = x := by
  by_cases h : x ∈ l
  · rw [sadd, if_pos h]
    constructor
    · exact Or.inl
    · rintro (h1 | rfl)
      · exact h1
      · exact h
  · rw [sadd, if_neg h]
    simp

theorem sadd_nodup {α : Type} [DecidableEq α] (l : List α) (x : α)
    (h : l.Nodup) : (sadd l x).Nodup := by
  by_cases hm : x ∈ l
  · simpa [sadd, hm] using h
  · rw [sadd, if_neg hm]
    refine List.Nodup.append h (List.nodup_singleton x) ?_
    intro a ha hb
    rw [List.mem_singleton] at hb
    exact hm (hb ▸ ha)

theorem sadd_ne_nil {α : Type} [DecidableEq α] (l : List α) (x : α) :
    sadd l x ≠ [] := by
  by_cases hm : x ∈ l
  · rw [sadd, if_pos hm]
    intro hnil
    rw [hnil] at hm
    exact (List.not_mem_nil x) hm
  · rw [sadd, if_neg hm]
    simp

theorem alookup_eq_of_mem {κ α : Type} [DecidableEq κ] (l : List (κ × α)) (k : κ) (v : α)
    (hnd : (akeys l).Nodup) (h : (k, v) ∈ l) : alookup l k = some v := by
  induction l with
  | nil => cases h
  | cons p rest ih =>
      obtain ⟨k2, v2⟩ := p
      simp only [akeys, List.map_cons, List.nodup_cons] at hnd
      rcases List.mem_cons.mp h with h1 | h1
      · injection h1 with e1 e2
        subst e1
        subst e2
        simp [alookup]
      · have hk2 : ¬ k2 = k := by
          intro he
          subst he
          exact hnd.1 (List.mem_map_of_mem Prod.fst h1)
        simp only [alookup, if_neg hk2]
        exact ih hnd.2 h1

theorem remove_session_active_ne (a : WebSocketAuthenticator) (d c : String)
    (h : c ≠ d) :
    alookup (a.remove_session d).active_sessions c =
      alookup a.active_sessions c := by
  unfold WebSocketAuthenticator.remove_session
  cases alookup a.active_sessions d
  · rfl
  · exact alookup_aerase_ne _ _ _ h

theorem remove_session_active_none (a : WebSocketAuthenticator) (d c : String)
    (h : alookup a.active_sessions c = none) :
    alookup (a.remove_session d).active_sessions c = none := by
  by_cases hc : c = d
  · subst hc
    unfold WebSocketAuthenticator.remove_session
    rw [h]
    exact h
  · rw [remove_session_active_ne a d c hc]
    exact h

theorem fold_remove_active_ne (l : List String) (a : WebSocketAuthenticator)
    (c : String) (h : c ∉ l) :
    alookup (l.foldl (fun acc d => acc.remove_session d) a).active_sessions c =
      alookup a.active_sessions c := by
  induction l generalizing a with
  | nil => rfl
  | cons d rest ih =>
      rw [List.foldl_cons, ih _ (fun hm => h (List.mem_cons_of_mem d hm))]
      exact remove_session_active_ne a d c
        (fun he => h (he ▸ List.mem_cons_self d rest))

theorem fold_remove_active_none (l : List String) (a : WebSocketAuthenticator)
    (c : String) (h : alookup a.active_sessions c = none) :
    alookup (l.foldl (fun acc d => acc.remove_session d) a).active_sessions c =
      none := by
  induction l generalizing a with
  | nil => exact h
  | cons d rest ih =>
      rw [List.foldl_cons]
      exact ih _ (remove_session_active_none a d c h)

theorem fold_remove_active_all (l : List String) (a : WebSocketAuthenticator) :
    ∀ c ∈ l,
      alookup (l.foldl (fun acc d => acc.remove_session d) a).active_sessions c =
        none := by
  induction l generalizing a with
  | nil => intro c hc; cases hc
  | cons d rest ih =>
      intro c hc
      rw [List.foldl_cons]
      rcases List.mem_cons.mp hc with h1 | h1
      · subst h1
        apply fold_remove_active_none
        unfold WebSocketAuthenticator.remove_session
        cases hd : alookup a.active_sessions c
        · exact hd
        · exact alookup_aerase_self _ _
      · exact ih _ c h1

/-! ## C10: session lookups mutate the idle clock -/

/-- Claim C10, confirmed: looking a session up (directly or through
`verify_permission`) stamps its `last_activity` with the current time and
changes nothing else — neither its other fields, nor other sessions, nor
the per-user index or rate buckets; consequently a session queried within
`max_idle_time` of a sweep survives `cleanup_expired_sessions` no matter
when the user was last genuinely active. -/
theorem C10_get_session_updates_activity
    (a : WebSocketAuthenticator) (cid perm : String) (s : WebSocketSession)
    (now max_idle now2 : Int)
    (hs : alookup a.active_sessions cid = some s)
    (hnd : (akeys a.active_sessions).Nodup)
    (hidle : now2 - now ≤ max_idle) :
    (a.get_session cid now).2 = some { s with last_activity := now } ∧
    alookup (a.get_session cid now).1.active_sessions cid =
      some { s with last_activity := now } ∧
    (∀ d, d ≠ cid → alookup (a.get_session cid now).1.active_sessions d =
      alookup a.active_sessions d) ∧
    (a.get_session cid now).1.user_sessions = a.user_sessions ∧
    (a.get_session cid now).1.rate_buckets = a.rate_buckets ∧
    (a.verify_permission cid perm now).1 = (a.get_session cid now).1 ∧
    (a.verify_permission cid perm now).2 =
      WebSocketSession.has_permission { s with last_activity := now } perm ∧
    alookup (((a.get_session cid now).1).cleanup_expired_sessions max_idle
      now2).active_sessions cid = some { s with last_activity := now } := by
  have hget : a.get_session cid now =
      ({ a with active_sessions :=
          astore a.active_sessions cid { s with last_activity := now } },
        some { s with last_activity := now }) := by
    unfold WebSocketAuthenticator.get_session
    rw [hs]
  have hvp : a.verify_permission cid perm now =
      ((a.get_session cid now).1,
        WebSocketSession.has_permission { s with last_activity := now } perm) := by
    unfold WebSocketAuthenticator.verify_permission
    rw [hget]
  have hnd2 : (akeys (astore a.active_sessions cid
      { s with last_activity := now })).Nodup := akeys_nodup_astore _ _ _ hnd
  have hclean :
      alookup (((a.get_session cid now).1).cleanup_expired_sessions max_idle
        now2).active_sessions cid = some { s with last_activity := now } := by
    rw [hget]
    unfold WebSocketAuthenticator.cleanup_expired_sessions
    dsimp only
    rw [fold_remove_active_ne]
    · exact alookup_astore_self _ _ _
    · intro hmem
      obtain ⟨p, hp, hfst⟩ := List.mem_map.mp hmem
      obtain ⟨hpf, hcond⟩ := List.mem_filter.mp hp
      obtain ⟨pc, ps⟩ := p
      simp only at hfst hcond
      rw [hfst] at hpf
      have hlook : alookup (astore a.active_sessions cid
          { s with last_activity := now }) cid = some ps :=
        alookup_eq_of_mem _ _ _ hnd2 hpf
      rw [alookup_astore_self] at hlook
      injection hlook with he
      rw [← he] at hcond
      simp only [decide_eq_true_eq] at hcond
      omega
  refine ⟨by rw [hget], ?_, ?_, by rw [hget], by rw [hget], by rw [hvp],
    by rw [hvp], hclean⟩
  · rw [hget]
    exact alookup_astore_self _ _ _
  · intro d hd
    rw [hget]
    exact alookup_astore_ne _ _ _ _ hd

/-- A one-session authenticator built by the authenticator itself. -/
def A1 : WebSocketAuthenticator :=
  (WebSocketAuthenticator.init.authenticate vt0 "tok" "c1" 0).1

/-- Closed instance of C10 at the one-session authenticator: a lookup at
time 5 restamps the idle clock and a sweep at time 100 with an idle bound
of 3600 keeps the session. -/
theorem C10_get_session_updates_activity_witness :
    (A1.get_session "c1" 5).2 = some
      { user := u0, connection_id := "c1", authenticated_at := 0,
        last_activity := 5, permissions := role_permissions Role.user } ∧
    alookup (A1.get_session "c1" 5).1.active_sessions "c1" = some
      { user := u0, connection_id := "c1", authenticated_at := 0,
        last_activity := 5, permissions := role_permissions Role.user } ∧
    (∀ d, d ≠ "c1" → alookup (A1.get_session "c1" 5).1.active_sessions d =
      alookup A1.active_sessions d) ∧
    (A1.get_session "c1" 5).1.user_sessions = A1.user_sessions ∧
    (A1.get_session "c1" 5).1.rate_buckets = A1.rate_buckets ∧
    (A1.verify_permission "c1" "read" 5).1 = (A1.get_session "c1" 5).1 ∧
    (A1.verify_permission "c1" "read" 5).2 =
      WebSocketSession.has_permission
        { user := u0, connection_id := "c1", authenticated_at := 0,
          last_activity := 5, permissions := role_permissions Role.user } "read" ∧
    alookup (((A1.get_session "c1" 5).1).cleanup_expired_sessions 3600
      100).active_sessions "c1" = some
      { user := u0, connection_id := "c1", authenticated_at := 0,
        last_activity := 5, permissions := role_permissions Role.user } :=
  C10_get_session_updates_activity A1 "c1" "read"
    { user := u0, connection_id := "c1", authenticated_at := 0,
      last_activity := 0, permissions := role_permissions Role.user }
    5 3600 100 (by decide) (by decide) (by decide)

/-! ## Coherence of the session store with the per-user index -/

/-- The authenticator's structural invariant: unique keys, no empty
per-user entry, every indexed connection id backed by a session of that
user, and every session indexed under its user. -/
def AuthWF (a : WebSocketAuthenticator) : Prop :=
  (akeys a.active_sessions).Nodup ∧
  (akeys a.user_sessions).Nodup ∧
  (∀ uid ids, alookup a.user_sessions uid = some ids →
    ids ≠ [] ∧ ids.Nodup ∧
    ∀ c ∈ ids, ∃ s, alookup a.active_sessions c = some s ∧ s.user.id = uid) ∧
  (∀ c s, alookup a.active_sessions c = some s →
    ∃ ids, alookup a.user_sessions s.user.id = some ids ∧ c ∈ ids)

theorem remove_session_active_self (a : WebSocketAuthenticator) (cid : String) :
    alookup (a.remove_session cid).active_sessions cid = none := by
  unfold WebSocketAuthenticator.remove_session
  cases hd : alookup a.active_sessions cid
  · exact hd
  · exact alookup_aerase_self _ _

theorem remove_session_WF (a : WebSocketAuthenticator) (cid : String)
    (h : AuthWF a) : AuthWF (a.remove_session cid) := by
  obtain ⟨hnd1, hnd2, h3, h4⟩ := h
  unfold WebSocketAuthenticator.remove_session
  cases hs : alookup a.active_sessions cid with
  | none => exact ⟨hnd1, hnd2, h3, h4⟩
  | some s =>
      obtain ⟨ids0, hids0, hmem0⟩ := h4 cid s hs
      dsimp only
      have hrem : alookupD a.user_sessions s.user.id [] = ids0 := by
        rw [alookupD, hids0]
        rfl
      rw [hrem]
      obtain ⟨hne0, hnd0, hback0⟩ := h3 s.user.id ids0 hids0
      refine ⟨akeys_nodup_aerase _ _ hnd1, ?_, ?_, ?_⟩
      · by_cases hempty : sdiscard ids0 cid = []
        · rw [if_pos hempty]
          exact akeys_nodup_aerase _ _ hnd2
        · rw [if_neg hempty]
          exact akeys_nodup_astore _ _ _ hnd2
      · intro uid2 ids2 hl2
        by_cases huid : uid2 = s.user.id
        · subst huid
          by_cases hempty : sdiscard ids0 cid = []
          · rw [if_pos hempty, alookup_aerase_self] at hl2
            cases hl2
          · rw [if_neg hempty, alookup_astore_self] at hl2
            injection hl2 with he
            subst he
            refine ⟨hempty, sdiscard_nodup _ _ hnd0, ?_⟩
            intro c2 hc2
            obtain ⟨hc2m, hc2ne⟩ := (mem_sdiscard ids0 cid c2).mp hc2
            obtain ⟨s2, hs2, hs2id⟩ := hback0 c2 hc2m
            exact ⟨s2, by rw [alookup_aerase_ne _ _ _ hc2ne]; exact hs2, hs2id⟩
        · have hl2old : alookup a.user_sessions uid2 = some ids2 := by
            by_cases hempty : sdiscard ids0 cid = []
            · rwa [if_pos hempty, alookup_aerase_ne _ _ _ huid] at hl2
            · rwa [if_neg hempty, alookup_astore_ne _ _ _ _ huid] at hl2
          obtain ⟨hne2, hnd2b, hback2⟩ := h3 uid2 ids2 hl2old
          refine ⟨hne2, hnd2b, ?_⟩
          intro c2 hc2
          obtain ⟨s2, hs2, hs2id⟩ := hback2 c2 hc2
          have hc2ne : c2 ≠ cid := by
            intro he
            subst he
            rw [hs] at hs2
            injection hs2 with he2
            subst he2
            exact huid hs2id.symm
          exact ⟨s2, by rw [alookup_aerase_ne _ _ _ hc2ne]; exact hs2, hs2id⟩
      · intro c2 s2 hl2
        have hc2ne : c2 ≠ cid := by
          intro he
          subst he
          rw [alookup_aerase_self] at hl2
          cases hl2
        rw [alookup_aerase_ne _ _ _ hc2ne] at hl2
        obtain ⟨ids3, hids3, hc2m⟩ := h4 c2 s2 hl2
        by_cases huid : s2.user.id = s.user.id
        · rw [huid] at hids3
          rw [hids0] at hids3
          injection hids3 with he
          subst he
          have hc2rem : c2 ∈ sdiscard ids0 cid :=
            (mem_sdiscard ids0 cid c2).mpr ⟨hc2m, hc2ne⟩
          have hempty : ¬ sdiscard ids0 cid = [] := by
            intro he
            rw [he] at hc2rem
            exact (List.not_mem_nil c2) hc2rem
          rw [huid, if_neg hempty, alookup_astore_self]
          exact ⟨_, rfl, hc2rem⟩
        · by_cases hempty : sdiscard ids0 cid = []
          · rw [if_pos hempty, alookup_aerase_ne _ _ _ huid]
            exact ⟨ids3, hids3, hc2m⟩
          · rw [if_neg hempty, alookup_astore_ne _ _ _ _ huid]
            exact ⟨ids3, hids3, hc2m⟩

theorem create_session_WF (a : WebSocketAuthenticator) (u : User) (cid : String)
    (now : Int) (h : AuthWF a) : AuthWF (a.create_session u cid now).1 := by
  unfold WebSocketAuthenticator.create_session
  dsimp only
  have hWF1 : AuthWF (if (alookup a.active_sessions cid).isSome then
      a.remove_session cid else a) := by
    by_cases hx : (alookup a.active_sessions cid).isSome
    · rw [if_pos hx]
      exact remove_session_WF a cid h
    · rw [if_neg hx]
      exact h
  have hnone : alookup (if (alookup a.active_sessions cid).isSome then
      a.remove_session cid else a).active_sessions cid = none := by
    by_cases hx : (alookup a.active_sessions cid).isSome
    · rw [if_pos hx]
      exact remove_session_active_self a cid
    · rw [if_neg hx]
      exact Option.not_isSome_iff_eq_none.mp hx
  revert hWF1 hnone
  generalize (if (alookup a.active_sessions cid).isSome then
      a.remove_session cid else a) = a1
  intro hWF1 hnone
  obtain ⟨hnd1, hnd2, h3, h4⟩ := hWF1
  have hprevnd : (alookupD a1.user_sessions u.id []).Nodup := by
    rw [alookupD]
    cases hp : alookup a1.user_sessions u.id
    · exact List.nodup_nil
    · exact (h3 u.id _ hp).2.1
  refine ⟨akeys_nodup_astore _ _ _ hnd1, akeys_nodup_astore _ _ _ hnd2, ?_, ?_⟩
  · intro uid2 ids2 hl2
    by_cases huid : uid2 = u.id
    · subst huid
      rw [alookup_astore_self] at hl2
      injection hl2 with he
      subst he
      refine ⟨sadd_ne_nil _ _, sadd_nodup _ _ hprevnd, ?_⟩
      intro c2 hc2
      rcases (mem_sadd _ cid c2).mp hc2 with hc2m | hc2e
      · have hc2ne : c2 ≠ cid := by
          intro he
          subst he
          rw [alookupD] at hc2m
          cases hp : alookup a1.user_sessions u.id with
          | none => rw [hp] at hc2m; cases hc2m
          | some ids =>
              rw [hp] at hc2m
              obtain ⟨s2, hs2, _⟩ := (h3 u.id ids hp).2.2 c2 hc2m
              rw [hnone] at hs2
              cases hs2
        rw [alookupD] at hc2m
        cases hp : alookup a1.user_sessions u.id with
        | none => rw [hp] at hc2m; cases hc2m
        | some ids =>
            rw [hp] at hc2m
            obtain ⟨s2, hs2, hs2id⟩ := (h3 u.id ids hp).2.2 c2 hc2m
            exact ⟨s2, by rw [alookup_astore_ne _ _ _ _ hc2ne]; exact hs2, hs2id⟩
      · subst hc2e
        exact ⟨_, alookup_astore_self _ _ _, rfl⟩
    · rw [alookup_astore_ne _ _ _ _ huid] at hl2
      obtain ⟨hne2, hnd2b, hback2⟩ := h3 uid2 ids2 hl2
      refine ⟨hne2, hnd2b, ?_⟩
      intro c2 hc2
      obtain ⟨s2, hs2, hs2id⟩ := hback2 c2 hc2
      have hc2ne : c2 ≠ cid := by
        intro he
        subst he
        rw [hnone] at hs2
        cases hs2
      exact ⟨s2, by rw [alookup_astore_ne _ _ _ _ hc2ne]; exact hs2, hs2id⟩
  · intro c2 s2 hl2
    by_cases hc2 : c2 = cid
    · subst hc2
      rw [alookup_astore_self] at hl2
      injection hl2 with he
      subst he
      refine ⟨sadd (alookupD a1.user_sessions u.id []) c2, ?_, ?_⟩
      · exact alookup_astore_self _ _ _
      · exact (mem_sadd _ c2 c2).mpr (Or.inr rfl)
    · rw [alookup_astore_ne _ _ _ _ hc2] at hl2
      obtain ⟨ids3, hids3, hc2m⟩ := h4 c2 s2 hl2
      by_cases huid : s2.user.id = u.id
      · rw [huid] at hids3 ⊢
        rw [alookup_astore_self]
        refine ⟨_, rfl, ?_⟩
        apply (mem_sadd _ cid c2).mpr
        left
        rw [alookupD, hids3]
        exact hc2m
      · rw [alookup_astore_ne _ _ _ _ huid]
        exact ⟨ids3, hids3, hc2m⟩

theorem get_session_WF (a : WebSocketAuthenticator) (cid : String) (now : Int)
    (h : AuthWF a) : AuthWF (a.get_session cid now).1 := by
  obtain ⟨hnd1, hnd2, h3, h4⟩ := h
  unfold WebSocketAuthenticator.get_session
  cases hs : alookup a.active_sessions cid with
  | none => exact ⟨hnd1, hnd2, h3, h4⟩
  | some s =>
      dsimp only
      refine ⟨akeys_nodup_astore _ _ _ hnd1, hnd2, ?_, ?_⟩
      · intro uid2 ids2 hl2
        obtain ⟨hne2, hnd2b, hback2⟩ := h3 uid2 ids2 hl2
        refine ⟨hne2, hnd2b, ?_⟩
        intro c2 hc2
        obtain ⟨s2, hs2, hs2id⟩ := hback2 c2 hc2
        by_cases hc2e : c2 = cid
        · subst hc2e
          rw [hs] at hs2
          injection hs2 with he
          subst he
          exact ⟨_, alookup_astore_self _ _ _, hs2id⟩
        · exact ⟨s2, by rw [alookup_astore_ne _ _ _ _ hc2e]; exact hs2, hs2id⟩
      · intro c2 s2 hl2
        by_cases hc2e : c2 = cid
        · subst hc2e
          rw [alookup_astore_self] at hl2
          injection hl2 with he
          subst he
          exact h4 c2 s hs
        · rw [alookup_astore_ne _ _ _ _ hc2e] at hl2
          exact h4 c2 s2 hl2

theorem fold_remove_WF (l : List String) (a : WebSocketAuthenticator)
    (h : AuthWF a) :
    AuthWF (l.foldl (fun acc d => acc.remove_session d) a) := by
  induction l generalizing a with
  | nil => exact h
  | cons d rest ih =>
      rw [List.foldl_cons]
      exact ih _ (remove_session_WF a d h)

theorem authenticate_WF (a : WebSocketAuthenticator)
    (vt : String → Option User) (token cid : String) (now : Int)
    (h : AuthWF a) : AuthWF (a.authenticate vt token cid now).1 := by
  unfold WebSocketAuthenticator.authenticate
  cases vt token with
  | none => exact h
  | some u =>
      dsimp only
      by_cases hr : (WebSocketRateLimiter.is_allowed a.rate_buckets u.id "auth"
          10 60 now).1 = true
      · rw [if_pos hr]
        exact create_session_WF _ u cid now h
      · rw [if_neg hr]
        exact h

theorem authenticate_api_key_WF (a : WebSocketAuthenticator)
    (va : String → Option User) (key cid : String) (now : Int)
    (h : AuthWF a) : AuthWF (a.authenticate_api_key va key cid now).1 := by
  unfold WebSocketAuthenticator.authenticate_api_key
  cases va key with
  | none => exact h
  | some u => exact create_session_WF a u cid now h

theorem verify_permission_WF (a : WebSocketAuthenticator) (cid perm : String)
    (now : Int) (h : AuthWF a) : AuthWF (a.verify_permission cid perm now).1 := by
  unfold WebSocketAuthenticator.verify_permission
  dsimp only
  cases (a.get_session cid now).2
  · exact get_session_WF a cid now h
  · exact get_session_WF a cid now h

theorem check_rate_limit_WF (a : WebSocketAuthenticator) (cid action : String)
    (limit : Nat) (window now : Int) (h : AuthWF a) :
    AuthWF (a.check_rate_limit cid action limit window now).1 := by
  unfold WebSocketAuthenticator.check_rate_limit
  dsimp only
  cases (a.get_session cid now).2
  · exact get_session_WF a cid now h
  · exact get_session_WF a cid now h

theorem revoke_WF (a : WebSocketAuthenticator) (uid : String) (h : AuthWF a) :
    AuthWF (a.revoke_user_sessions uid).1 := by
  unfold WebSocketAuthenticator.revoke_user_sessions
  cases alookup a.user_sessions uid
  · exact h
  · exact fold_remove_WF _ a h

theorem cleanup_WF (a : WebSocketAuthenticator) (max_idle now : Int)
    (h : AuthWF a) : AuthWF (a.cleanup_expired_sessions max_idle now) :=
  fold_remove_WF _ a h

theorem handle_authenticate_authenticator (m : WebSocketManager)
    (ok : String → Bool) (cid : String) (data : List (String × String)) :
    (m.handle_authenticate ok cid data).1.authenticator = m.authenticator := by
  unfold WebSocketManager.handle_authenticate
  cases alookup data "token" with
  | none => rfl
  | some t =>
      dsimp only
      by_cases ht : t = ""
      · rw [if_pos ht]
      · rw [if_neg ht]

theorem handle_subscribe_authenticator (m : WebSocketManager)
    (ok : String → Bool) (cid : String) (data : List (String × String))
    (now : Int) :
    (m.handle_subscribe ok cid data now).authenticator = m.authenticator := by
  unfold WebSocketManager.handle_subscribe
  cases alookup data "subscription_type" with
  | none => rfl
  | some tag =>
      dsimp only
      cases SubscriptionType.fromValue tag with
      | none => rfl
      | some sub => rfl

theorem handle_unsubscribe_authenticator (m : WebSocketManager)
    (cid : String) (data : List (String × String)) :
    (m.handle_unsubscribe cid data).authenticator = m.authenticator := by
  unfold WebSocketManager.handle_unsubscribe
  cases alookup data "subscription_type" with
  | none => rfl
  | some tag =>
      dsimp only
      cases SubscriptionType.fromValue tag with
      | none => rfl
      | some sub => rfl

theorem AuthWF_init : AuthWF WebSocketAuthenticator.init := by
  refine ⟨List.nodup_nil, List.nodup_nil, ?_, ?_⟩
  · intro uid ids hl
    cases hl
  · intro c s hl
    cases hl

/-- A manager reached by a single direct `authenticate` call (the §4.2
collaborator contract, as `main.py` invokes it during the handshake,
before `connect`): a session for `c1` exists while `c1` is not in the
registry at all. -/
def Mbad : WebSocketManager :=
  { WebSocketManager.init with authenticator :=
      (WebSocketManager.init.authenticator.authenticate vt0 "tok" "c1" 0).1 }

/-- Claim C2 as written is refuted in this reachable state: the
authenticator holds a session bound to connection `c1`, yet `c1` is not a
registry connection in state `Authenticated` (it is not registered at
all) — `authenticate` creates the session without the registry
transition, exactly as the endpoint flow does before calling `connect`. -/
theorem C2_session_iff_authenticated_false :
    Reachable vt0 va0 Mbad ∧
    (alookup Mbad.authenticator.active_sessions "c1").isSome = true ∧
    alookup Mbad.connection_manager.connections "c1" = none := by
  refine ⟨Relation.ReflTransGen.single
    (SystemStep.auth_authenticate WebSocketManager.init "tok" "c1" 0), ?_, ?_⟩
  · decide
  · decide

/-- Claim C2, amended: in every reachable state the per-user session index
is coherent with the session store — an index entry exists exactly for
users with at least one session, is never empty, lists only connection
ids bound to sessions of that user, and every session is listed under its
user (so removing a session always cleans the index, deleting an emptied
entry).  The other half of the original claim is false: session existence
is not equivalent to the connection being `Authenticated` in the registry
(see the accompanying refutation). -/
theorem C2_session_index_invariant (vt va : String → Option User)
    (m : WebSocketManager) (h : Reachable vt va m) :
    AuthWF m.authenticator := by
  unfold Reachable at h
  induction h with
  | refl => exact AuthWF_init
  | tail hr step ih =>
      cases step with
      | connect ok cid now => exact ih
      | disconnect cid => exact ih
      | authenticate_connection ok cid u now => exact ih
      | handle_authenticate ok cid data =>
          rw [handle_authenticate_authenticator]
          exact ih
      | handle_subscribe ok cid data now =>
          rw [handle_subscribe_authenticator]
          exact ih
      | handle_unsubscribe cid data =>
          rw [handle_unsubscribe_authenticator]
          exact ih
      | handle_ping ok cid now => exact ih
      | handle_pong cid now => exact ih
      | send_to_user ok uid event => exact ih
      | broadcast_to_subscription ok sub event => exact ih
      | broadcast_to_all ok event => exact ih
      | auth_authenticate token cid now =>
          exact authenticate_WF _ vt token cid now ih
      | auth_api_key key cid now =>
          exact authenticate_api_key_WF _ va key cid now ih
      | remove_session cid => exact remove_session_WF _ cid ih
      | get_session cid now => exact get_session_WF _ cid now ih
      | verify_permission cid perm now =>
          exact verify_permission_WF _ cid perm now ih
      | check_rate_limit cid action limit window now =>
          exact check_rate_limit_WF _ cid action limit window now ih
      | revoke_user_sessions uid => exact revoke_WF _ uid ih
      | cleanup_expired_sessions max_idle now =>
          exact cleanup_WF _ max_idle now ih

/-- Closed instance of the amended C2 at a concrete reachable state. -/
theorem C2_session_index_invariant_witness : AuthWF Mbad.authenticator :=
  C2_session_index_invariant vt0 va0 Mbad
    (Relation.ReflTransGen.single
      (SystemStep.auth_authenticate WebSocketManager.init "tok" "c1" 0))

/-! ## C8: revoking the sessions of a user -/

theorem fold_remove_active_some_before (l : List String)
    (a : WebSocketAuthenticator) (c : String) (s2 : WebSocketSession)
    (h : alookup (l.foldl (fun acc d => acc.remove_session d) a).active_sessions
      c = some s2) :
    alookup a.active_sessions c = some s2 := by
  induction l generalizing a with
  | nil => exact h
  | cons d rest ih =>
      rw [List.foldl_cons] at h
      have h2 := ih _ h
      by_cases hc : c = d
      · subst hc
        rw [remove_session_active_self] at h2
        cases h2
      · rwa [remove_session_active_ne _ _ _ hc] at h2

/-- Claim C8, amended: `revoke_user_sessions(u)` on a user holding `n`
sessions removes all `n` sessions, deletes the user's index entry, and
returns `n`; an immediately subsequent call returns `0`.  It does **not**
disconnect the underlying registry connections: the call never touches
the connection manager (see the accompanying refutation). -/
theorem C8_revoke_user_sessions (m : WebSocketManager) (uid : String)
    (ids : List String) (hWF : AuthWF m.authenticator)
    (hids : alookup m.authenticator.user_sessions uid = some ids) :
    (m.authenticator.revoke_user_sessions uid).2 = ids.length ∧
    (∀ c ∈ ids,
      alookup (m.authenticator.revoke_user_sessions uid).1.active_sessions c =
        none) ∧
    alookup (m.authenticator.revoke_user_sessions uid).1.user_sessions uid =
      none ∧
    ((m.authenticator.revoke_user_sessions uid).1.revoke_user_sessions uid).2 =
      0 ∧
    ({ m with authenticator := (m.authenticator.revoke_user_sessions uid).1 } :
      WebSocketManager).connection_manager = m.connection_manager := by
  have hrev : m.authenticator.revoke_user_sessions uid =
      (ids.foldl (fun acc c => acc.remove_session c) m.authenticator,
        ids.length) := by
    unfold WebSocketAuthenticator.revoke_user_sessions
    rw [hids]
  have husers :
      alookup (ids.foldl (fun acc c => acc.remove_session c)
        m.authenticator).user_sessions uid = none := by
    cases hafter : alookup (ids.foldl (fun acc c => acc.remove_session c)
        m.authenticator).user_sessions uid with
    | none => rfl
    | some ids2 =>
        exfalso
        obtain ⟨_, _, h3, _⟩ := fold_remove_WF ids m.authenticator hWF
        obtain ⟨hne2, _, hback2⟩ := h3 uid ids2 hafter
        cases ids2 with
        | nil => exact hne2 rfl
        | cons c2 rest2 =>
            obtain ⟨s2, hs2, hs2id⟩ := hback2 c2 (List.mem_cons_self c2 rest2)
            have hbefore := fold_remove_active_some_before ids m.authenticator
              c2 s2 hs2
            obtain ⟨_, _, _, h4⟩ := hWF
            obtain ⟨ids3, hids3, hc2m⟩ := h4 c2 s2 hbefore
            rw [hs2id, hids] at hids3
            injection hids3 with he
            subst he
            rw [fold_remove_active_all ids m.authenticator c2 hc2m] at hs2
            cases hs2
  refine ⟨by rw [hrev], ?_, ?_, ?_, rfl⟩
  · intro c hc
    rw [hrev]
    exact fold_remove_active_all ids m.authenticator c hc
  · rw [hrev]
    exact husers
  · rw [hrev]
    unfold WebSocketAuthenticator.revoke_user_sessions
    dsimp only
    rw [husers]

/-- A manager where user `u1` holds one live authenticated connection
`c1` with a session, built by the endpoint flow of `main.py` (handshake
`authenticate`, then `connect`, then `authenticate_connection`). -/
def M1 : WebSocketManager :=
  { connection_manager :=
      ConnectionManager.authenticate_connection_state
        (ConnectionManager.init.connect okAll "c1" 0).1 okAll "c1" u0 0
    authenticator := (WebSocketAuthenticator.init.authenticate vt0 "tok" "c1" 0).1 }

/-- Claim C8 as written is refuted here: revoking the one live session of
`u1` removes the session and returns 1, yet the connection `c1` remains
live in the registry (still `Authenticated`) — nothing is disconnected. -/
theorem C8_revoke_does_not_disconnect :
    alookup M1.authenticator.user_sessions "u1" = some ["c1"] ∧
    (M1.authenticator.revoke_user_sessions "u1").2 = 1 ∧
    alookup (M1.authenticator.revoke_user_sessions "u1").1.active_sessions
      "c1" = none ∧
    (alookup ({ M1 with authenticator :=
        (M1.authenticator.revoke_user_sessions "u1").1 } :
        WebSocketManager).connection_manager.connections "c1").map
      (fun c => c.state) = some ConnectionState.authenticated := by
  decide

/-- Closed instance of the amended C8 at the one-session manager. -/
theorem C8_revoke_user_sessions_witness :
    (M1.authenticator.revoke_user_sessions "u1").2 = (["c1"] : List String).length ∧
    (∀ c ∈ (["c1"] : List String),
      alookup (M1.authenticator.revoke_user_sessions "u1").1.active_sessions c =
        none) ∧
    alookup (M1.authenticator.revoke_user_sessions "u1").1.user_sessions "u1" =
      none ∧
    ((M1.authenticator.revoke_user_sessions "u1").1.revoke_user_sessions
      "u1").2 = 0 ∧
    ({ M1 with authenticator := (M1.authenticator.revoke_user_sessions "u1").1 } :
      WebSocketManager).connection_manager = M1.connection_manager :=
  C8_revoke_user_sessions M1 "u1" ["c1"]
    (authenticate_WF WebSocketAuthenticator.init vt0 "tok" "c1" 0 AuthWF_init)
    (by decide)

/-! ## C6: broadcast loops and dead-peer isolation -/

/-- A send to `cid` in state `cm` succeeds: registered, alive, and the
socket write goes through. -/
def sendOK (cm : ConnectionManager) (ok : String → Bool) (cid : String) : Bool :=
  match alookup cm.connections cid with
  | some conn => conn.is_alive && ok cid
  | none => false

/-- A send to `cid` fails on the socket write (dead peer): registered and
alive, but the write fails. -/
def sendFail (cm : ConnectionManager) (ok : String → Bool) (cid : String) : Bool :=
  match alookup cm.connections cid with
  | some conn => conn.is_alive && !(ok cid)
  | none => false

theorem disconnect_connections_self (cm : ConnectionManager) (cid : String) :
    alookup (cm.disconnect cid).connections cid = none := by
  unfold ConnectionManager.disconnect
  cases hd : alookup cm.connections cid with
  | none => exact hd
  | some conn =>
      dsimp only
      cases conn.user <;> dsimp only <;> exact alookup_aerase_self _ _

theorem disconnect_connections_ne (cm : ConnectionManager) (cid d : String)
    (h : d ≠ cid) :
    alookup (cm.disconnect cid).connections d = alookup cm.connections d := by
  unfold ConnectionManager.disconnect
  cases hd : alookup cm.connections cid with
  | none => rfl
  | some conn =>
      dsimp only
      cases conn.user <;> dsimp only <;> exact alookup_aerase_ne _ _ _ h

/-- Full specification of one send: the returned boolean, what reaches the
socket, and the effect on the registry. -/
theorem send_spec (cm : ConnectionManager) (ok : String → Bool) (cid : String)
    (ev : OutEvent) :
    (cm.send_to_connection ok cid ev).delivered = sendOK cm ok cid ∧
    (cm.send_to_connection ok cid ev).sent =
      (if sendOK cm ok cid then [(cid, ev)] else []) ∧
    (∀ d, d ≠ cid → alookup (cm.send_to_connection ok cid ev).cm.connections d =
      alookup cm.connections d) ∧
    (sendFail cm ok cid = true →
      alookup (cm.send_to_connection ok cid ev).cm.connections cid = none) ∧
    (sendOK cm ok cid = true → ∀ conn, alookup cm.connections cid = some conn →
      alookup (cm.send_to_connection ok cid ev).cm.connections cid =
        some { conn with message_count := conn.message_count + 1 }) := by
  cases hd : alookup cm.connections cid with
  | none =>
      rw [send_to_connection_missing cm ok cid ev hd]
      unfold sendOK sendFail
      rw [hd]
      exact ⟨rfl, rfl, fun d _ => rfl, (by intro h; cases h),
        (by intro h; cases h)⟩
  | some conn =>
      cases halive : conn.is_alive with
      | false =>
          rw [send_to_connection_not_alive cm ok cid ev conn hd halive]
          unfold sendOK sendFail
          rw [hd]
          dsimp only
          rw [halive]
          refine ⟨rfl, ?_, fun d _ => rfl, (by intro h; simp at h),
            (by intro h; simp at h)⟩
          simp
      | true =>
          cases hok : ok cid with
          | true =>
              rw [send_to_connection_ok cm ok cid ev conn hd halive hok]
              unfold sendOK sendFail
              rw [hd]
              dsimp only
              rw [halive, hok]
              refine ⟨rfl, rfl, ?_, (by intro h; simp at h), ?_⟩
              · intro d hdne
                exact alookup_astore_ne _ _ _ _ hdne
              · intro _ conn2 hconn2
                injection hconn2 with he
                subst he
                exact alookup_astore_self _ _ _
          | false =>
              rw [send_to_connection_dead cm ok cid ev conn hd halive hok]
              unfold sendOK sendFail
              rw [hd]
              dsimp only
              rw [halive, hok]
              refine ⟨rfl, ?_, ?_, ?_, (by intro h; simp at h)⟩
              · simp
              · intro d hdne
                rw [disconnect_connections_ne _ _ _ hdne]
                exact alookup_astore_ne _ _ _ _ hdne
              · intro _
                exact disconnect_connections_self _ _

theorem sendOK_congr (cm1 cm2 : ConnectionManager) (ok : String → Bool)
    (i : String) (h : alookup cm1.connections i = alookup cm2.connections i) :
    sendOK cm1 ok i = sendOK cm2 ok i := by
  unfold sendOK
  rw [h]

theorem sendFail_congr (cm1 cm2 : ConnectionManager) (ok : String → Bool)
    (i : String) (h : alookup cm1.connections i = alookup cm2.connections i) :
    sendFail cm1 ok i = sendFail cm2 ok i := by
  unfold sendFail
  rw [h]

/-- Full specification of the broadcast loop over a duplicate-free
snapshot of target ids. -/
theorem send_loop_spec (ok : String → Bool) (ev : OutEvent) (ids : List String)
    (cm : ConnectionManager) (hnd : ids.Nodup) :
    (ConnectionManager.send_loop ok ev cm ids).count =
      (ids.filter (fun i => sendOK cm ok i)).length ∧
    (ConnectionManager.send_loop ok ev cm ids).sent =
      (ids.filter (fun i => sendOK cm ok i)).map (fun i => (i, ev)) ∧
    (∀ d, d ∉ ids →
      alookup (ConnectionManager.send_loop ok ev cm ids).cm.connections d =
        alookup cm.connections d) ∧
    (∀ d ∈ ids, sendFail cm ok d = true →
      alookup (ConnectionManager.send_loop ok ev cm ids).cm.connections d =
        none) ∧
    (∀ d ∈ ids, sendOK cm ok d = true →
      ∀ conn, alookup cm.connections d = some conn →
        alookup (ConnectionManager.send_loop ok ev cm ids).cm.connections d =
          some { conn with message_count := conn.message_count + 1 }) := by
  induction ids generalizing cm with
  | nil =>
      exact ⟨rfl, rfl, fun d _ => rfl, (by intro d hd; cases hd),
        (by intro d hd; cases hd)⟩
  | cons c rest ih =>
      obtain ⟨hc, hndr⟩ := List.nodup_cons.mp hnd
      obtain ⟨sd, ss, sne, sfail, sok⟩ := send_spec cm ok c ev
      have hlookpres : ∀ i ∈ rest,
          alookup (cm.send_to_connection ok c ev).cm.connections i =
            alookup cm.connections i := by
        intro i hi
        exact sne i (fun he => hc (he ▸ hi))
      have hokpres : ∀ i ∈ rest,
          sendOK (cm.send_to_connection ok c ev).cm ok i = sendOK cm ok i :=
        fun i hi => sendOK_congr _ _ ok i (hlookpres i hi)
      have hfailpres : ∀ i ∈ rest,
          sendFail (cm.send_to_connection ok c ev).cm ok i = sendFail cm ok i :=
        fun i hi => sendFail_congr _ _ ok i (hlookpres i hi)
      obtain ⟨ic, is, ine, ifail, iok⟩ := ih (cm.send_to_connection ok c ev).cm hndr
      have hfilter : (rest.filter (fun i =>
          sendOK (cm.send_to_connection ok c ev).cm ok i)) =
          rest.filter (fun i => sendOK cm ok i) :=
        List.filter_congr hokpres
      rw [ConnectionManager.send_loop]
      refine ⟨?_, ?_, ?_, ?_, ?_⟩
      · dsimp only
        rw [ic, hfilter, List.filter_cons, sd]
        cases hcok : sendOK cm ok c <;> simp [hcok] <;> omega
      · dsimp only
        rw [is, hfilter, ss, List.filter_cons]
        cases hcok : sendOK cm ok c <;> simp [hcok]
      · intro d hd
        dsimp only
        rw [ine d (fun hm => hd (List.mem_cons_of_mem c hm))]
        exact sne d (fun he => hd (he ▸ List.mem_cons_self c rest))
      · intro d hd hdfail
        dsimp only
        rcases List.mem_cons.mp hd with h1 | h1
        · subst h1
          rw [ine d hc]
          exact sfail hdfail
        · rw [← hfailpres d h1] at hdfail
          exact ifail d h1 hdfail
      · intro d hd hdok conn hconn
        dsimp only
        rcases List.mem_cons.mp hd with h1 | h1
        · subst h1
          rw [ine d hc]
          exact sok hdok conn hconn
        · rw [← hokpres d h1] at hdok
          refine iok d h1 hdok conn ?_
          rw [hlookpres d h1]
          exact hconn

/-- Claim C6, confirmed: for each broadcast primitive — to all connections,
to a subscription group, or to one user's connections — the returned count
is exactly the number of targets whose send succeeded; every target whose
socket write fails is disconnected and removed from the registry while the
loop continues; and every remaining live target receives the event (its
message counter is bumped and it stays registered). -/
theorem C6_broadcast_failure_isolation (cm : ConnectionManager)
    (ok : String → Bool) (event : OutEvent) (uid : String)
    (sub : SubscriptionType)
    (hnd : (akeys cm.connections).Nodup)
    (hndu : (alookupD cm.user_connections uid []).Nodup)
    (hnds : (alookupD cm.subscription_connections sub []).Nodup) :
    ((cm.broadcast_to_all ok event).count =
      ((akeys cm.connections).filter (fun i => sendOK cm ok i)).length ∧
     (cm.broadcast_to_all ok event).sent =
      ((akeys cm.connections).filter (fun i => sendOK cm ok i)).map
        (fun i => (i, event)) ∧
     (∀ d ∈ akeys cm.connections, sendFail cm ok d = true →
       alookup (cm.broadcast_to_all ok event).cm.connections d = none) ∧
     (∀ d ∈ akeys cm.connections, sendOK cm ok d = true →
       ∀ conn, alookup cm.connections d = some conn →
         alookup (cm.broadcast_to_all ok event).cm.connections d =
           some { conn with message_count := conn.message_count + 1 })) ∧
    ((cm.broadcast_to_subscription ok sub event).count =
      ((alookupD cm.subscription_connections sub []).filter
        (fun i => sendOK cm ok i)).length ∧
     (cm.broadcast_to_subscription ok sub event).sent =
      ((alookupD cm.subscription_connections sub []).filter
        (fun i => sendOK cm ok i)).map (fun i => (i, event)) ∧
     (∀ d ∈ alookupD cm.subscription_connections sub [],
       sendFail cm ok d = true →
       alookup (cm.broadcast_to_subscription ok sub event).cm.connections d =
         none) ∧
     (∀ d ∈ alookupD cm.subscription_connections sub [],
       sendOK cm ok d = true →
       ∀ conn, alookup cm.connections d = some conn →
         alookup (cm.broadcast_to_subscription ok sub event).cm.connections d =
           some { conn with message_count := conn.message_count + 1 })) ∧
    ((cm.send_to_user ok uid event).count =
      ((alookupD cm.user_connections uid []).filter
        (fun i => sendOK cm ok i)).length ∧
     (cm.send_to_user ok uid event).sent =
      ((alookupD cm.user_connections uid []).filter
        (fun i => sendOK cm ok i)).map (fun i => (i, event)) ∧
     (∀ d ∈ alookupD cm.user_connections uid [], sendFail cm ok d = true →
       alookup (cm.send_to_user ok uid event).cm.connections d = none) ∧
     (∀ d ∈ alookupD cm.user_connections uid [], sendOK cm ok d = true →
       ∀ conn, alookup cm.connections d = some conn →
         alookup (cm.send_to_user ok uid event).cm.connections d =
           some { conn with message_count := conn.message_count + 1 })) := by
  refine ⟨?_, ?_, ?_⟩
  · unfold ConnectionManager.broadcast_to_all
    obtain ⟨a1, a2, _, a4, a5⟩ := send_loop_spec ok event (akeys cm.connections) cm hnd
    exact ⟨a1, a2, a4, a5⟩
  · unfold ConnectionManager.broadcast_to_subscription
    cases hlook : alookup cm.subscription_connections sub with
    | none =>
        have h0 : alookupD cm.subscription_connections sub [] = [] := by
          rw [alookupD, hlook]
          rfl
        rw [h0]
        exact ⟨rfl, rfl, (by intro d hd; cases hd), (by intro d hd; cases hd)⟩
    | some ids =>
        have h0 : alookupD cm.subscription_connections sub [] = ids := by
          rw [alookupD, hlook]
          rfl
        rw [h0]
        rw [h0] at hnds
        obtain ⟨a1, a2, _, a4, a5⟩ := send_loop_spec ok event ids cm hnds
        exact ⟨a1, a2, a4, a5⟩
  · unfold ConnectionManager.send_to_user
    cases hlook : alookup cm.user_connections uid with
    | none =>
        have h0 : alookupD cm.user_connections uid [] = [] := by
          rw [alookupD, hlook]
          rfl
        rw [h0]
        exact ⟨rfl, rfl, (by intro d hd; cases hd), (by intro d hd; cases hd)⟩
    | some ids =>
        have h0 : alookupD cm.user_connections uid [] = ids := by
          rw [alookupD, hlook]
          rfl
        rw [h0]
        rw [h0] at hndu
        obtain ⟨a1, a2, _, a4, a5⟩ := send_loop_spec ok event ids cm hndu
        exact ⟨a1, a2, a4, a5⟩

/-- Socket writes to `c2` fail; all others succeed. -/
def okDrop : String → Bool := fun c => !(c == "c2")

/-- A sample outbound domain event. -/
def EV : OutEvent := { type := EventType.system_status, data := [("component", "ws")] }

/-- A registry with connections `c1` and `c2`, both subscribed to
`messages`. -/
def CM2 : ConnectionManager :=
  ConnectionManager.subscribe_state
    (ConnectionManager.subscribe_state
      ((ConnectionManager.init.connect okAll "c1" 0).1.connect okAll "c2" 0).1
      okAll "c1" SubscriptionType.messages 0)
    okAll "c2" SubscriptionType.messages 0

/-- Closed instance of C6 at the two-connection registry where the peer
`c2` is dead. -/
theorem C6_broadcast_failure_isolation_witness :
    ((CM2.broadcast_to_all okDrop EV).count =
      ((akeys CM2.connections).filter (fun i => sendOK CM2 okDrop i)).length ∧
     (CM2.broadcast_to_all okDrop EV).sent =
      ((akeys CM2.connections).filter (fun i => sendOK CM2 okDrop i)).map
        (fun i => (i, EV)) ∧
     (∀ d ∈ akeys CM2.connections, sendFail CM2 okDrop d = true →
       alookup (CM2.broadcast_to_all okDrop EV).cm.connections d = none) ∧
     (∀ d ∈ akeys CM2.connections, sendOK CM2 okDrop d = true →
       ∀ conn, alookup CM2.connections d = some conn →
         alookup (CM2.broadcast_to_all okDrop EV).cm.connections d =
           some { conn with message_count := conn.message_count + 1 })) ∧
    ((CM2.broadcast_to_subscription okDrop SubscriptionType.messages EV).count =
      ((alookupD CM2.subscription_connections SubscriptionType.messages
        []).filter (fun i => sendOK CM2 okDrop i)).length ∧
     (CM2.broadcast_to_subscription okDrop SubscriptionType.messages EV).sent =
      ((alookupD CM2.subscription_connections SubscriptionType.messages
        []).filter (fun i => sendOK CM2 okDrop i)).map (fun i => (i, EV)) ∧
     (∀ d ∈ alookupD CM2.subscription_connections SubscriptionType.messages [],
       sendFail CM2 okDrop d = true →
       alookup (CM2.broadcast_to_subscription okDrop SubscriptionType.messages
         EV).cm.connections d = none) ∧
     (∀ d ∈ alookupD CM2.subscription_connections SubscriptionType.messages [],
       sendOK CM2 okDrop d = true →
       ∀ conn, alookup CM2.connections d = some conn →
         alookup (CM2.broadcast_to_subscription okDrop SubscriptionType.messages
           EV).cm.connections d =
           some { conn with message_count := conn.message_count + 1 })) ∧
    ((CM2.send_to_user okDrop "u1" EV).count =
      ((alookupD CM2.user_connections "u1" []).filter
        (fun i => sendOK CM2 okDrop i)).length ∧
     (CM2.send_to_user okDrop "u1" EV).sent =
      ((alookupD CM2.user_connections "u1" []).filter
        (fun i => sendOK CM2 okDrop i)).map (fun i => (i, EV)) ∧
     (∀ d ∈ alookupD CM2.user_connections "u1" [], sendFail CM2 okDrop d = true →
       alookup (CM2.send_to_user okDrop "u1" EV).cm.connections d = none) ∧
     (∀ d ∈ alookupD CM2.user_connections "u1" [], sendOK CM2 okDrop d = true →
       ∀ conn, alookup CM2.connections d = some conn →
         alookup (CM2.send_to_user okDrop "u1" EV).cm.connections d =
           some { conn with message_count := conn.message_count + 1 })) :=
  C6_broadcast_failure_isolation CM2 okDrop EV "u1" SubscriptionType.messages
    (by decide) (by decide) (by decide)
